import Mathlib

/-!
# HomePage: search history, search filters and sorting

A shallow embedding of the state handling of
`src/frontend/src/pages/HomePage.jsx`.

* JavaScript strings are Lean `String`s (well-formed sequences of Unicode
  scalar values).  A string is truthy when it is not `""`.
* The component state (the six `useState` cells) together with the value
  stored under the local-storage key `searchHistory` is the record `State`;
  every handler is a function `State → State`.
* `new Date().toISOString()` is the argument `now` of the handlers that read
  the clock.
* The search functions take the lowering of strings as their argument
  `toLowerCase`, so that what does not depend on the case tables is proved for
  every lowering; `String.prototype.toLowerCase` itself is
  `JSString.toLowerCase`.
-/

namespace HomePage

/-! ## Data model -/

/-- An entry of the search history: `{ query, type, timestamp }`. -/
structure SearchHistoryEntry where
  query : String
  type : String
  timestamp : String
deriving DecidableEq, Repr

/-- The value of `selectedFilters`: `{ type, sortBy }`. -/
structure SelectedFilters where
  type : String
  sortBy : String
deriving DecidableEq, Repr

/-- The state cells of the component and the local-storage slot
`searchHistory` (`none`: the key is absent). -/
structure State where
  searchQuery : String
  selectedFilters : SelectedFilters
  showFilters : Bool
  searchType : String
  searchHistory : List SearchHistoryEntry
  showHistory : Bool
  localStorage : Option String
deriving DecidableEq, Repr

/-- The fields of a DOM event that `handleSearchSubmit` reads: `e.type` and
`e.key` (`none` when the event has no key, as for a click). -/
structure Event where
  type : String
  key : Option String
deriving DecidableEq, Repr

/-! ## String primitives -/

/-- The code points removed by `String.prototype.trim`: ECMAScript WhiteSpace
and LineTerminator. -/
def isWhiteSpace (c : Char) : Bool :=
  let n := c.toNat
  n == 0x09 || n == 0x0A || n == 0x0B || n == 0x0C || n == 0x0D || n == 0x20 ||
  n == 0xA0 || n == 0x1680 || (0x2000 ≤ n && n ≤ 0x200A) || n == 0x2028 ||
  n == 0x2029 || n == 0x202F || n == 0x205F || n == 0x3000 || n == 0xFEFF

/-- The method `s.trim()`: white space removed from both ends. -/
def trim (s : String) : String :=
  ⟨((s.data.dropWhile isWhiteSpace).reverse.dropWhile isWhiteSpace).reverse⟩

/-- Truthiness of a string value: every string but `""`. -/
def truthy (s : String) : Bool := !(s == "")

/-! ## JSON text of a search history -/

namespace JSON

/-- The lower-case hexadecimal digit of a number below 16. -/
def hexDigit (n : Nat) : Char :=
  if n < 10 then Char.ofNat (48 + n) else Char.ofNat (87 + n)

/-- The value of a hexadecimal digit. -/
def hexValue (c : Char) : Option Nat :=
  let n := c.toNat
  if 48 ≤ n ∧ n ≤ 57 then some (n - 48)
  else if 97 ≤ n ∧ n ≤ 102 then some (n - 87)
  else if 65 ≤ n ∧ n ≤ 70 then some (n - 55)
  else none

/-- The escape of one character inside a JSON string (QuoteJSONString). -/
def escapeChar (c : Char) : List Char :=
  if c = '"' then ['\\', '"']
  else if c = '\\' then ['\\', '\\']
  else if c = '\x08' then ['\\', 'b']
  else if c = '\x0c' then ['\\', 'f']
  else if c = '\n' then ['\\', 'n']
  else if c = '\r' then ['\\', 'r']
  else if c = '\t' then ['\\', 't']
  else if c.toNat < 32 then
    ['\\', 'u', '0', '0', hexDigit (c.toNat / 16), hexDigit (c.toNat % 16)]
  else [c]

/-- The escaped characters of a string. -/
def escape : List Char → List Char
  | [] => []
  | c :: cs => escapeChar c ++ escape cs

/-- The JSON text of a string value: the escaped characters in double
quotes. -/
def quote (s : String) : List Char :=
  '"' :: (escape s.data ++ ['"'])

/-- The JSON text of one entry; keys in creation order. -/
def stringifyEntry (e : SearchHistoryEntry) : List Char :=
  "\x7b\"query\":".data ++ quote e.query ++ ",\"type\":".data ++ quote e.type ++
    ",\"timestamp\":".data ++ quote e.timestamp ++ ['\x7d']

/-- The JSON text after an entry of the array: a comma and the next entry,
as often as there is one, and the closing bracket. -/
def stringifyMore : List SearchHistoryEntry → List Char
  | [] => [']']
  | e :: es => ',' :: (stringifyEntry e ++ stringifyMore es)

/-- The call `JSON.stringify(history)` for an array of entries: the texts of
the entries, separated by commas, in brackets. -/
def stringify (h : List SearchHistoryEntry) : String :=
  match h with
  | [] => ⟨['[', ']']⟩
  | e :: es => ⟨'[' :: (stringifyEntry e ++ stringifyMore es)⟩

/-- The character denoted by a one-letter escape. -/
def unescapeChar (c : Char) : Option Char :=
  if c = '"' then some '"'
  else if c = '\\' then some '\\'
  else if c = '/' then some '/'
  else if c = 'b' then some '\x08'
  else if c = 'f' then some '\x0c'
  else if c = 'n' then some '\n'
  else if c = 'r' then some '\r'
  else if c = 't' then some '\t'
  else none

/-- The character denoted by `\uXXXX`; `none` when a digit is not
hexadecimal or the code unit is a surrogate. -/
def unicodeEscape (a b c d : Char) : Option Char :=
  match hexValue a, hexValue b, hexValue c, hexValue d with
  | some x, some y, some z, some w =>
    let n := ((x * 16 + y) * 16 + z) * 16 + w
    if n < 0xD800 ∨ 0xDFFF < n then some (Char.ofNat n) else none
  | _, _, _, _ => none

/-- The characters of a JSON string up to its closing quote, and the input
after the quote. The argument `fuel` bounds the number of characters read. -/
def parseChars : Nat → List Char → Option (List Char × List Char)
  | 0, _ => none
  | _ + 1, [] => none
  | fuel + 1, c :: rest =>
    if c = '"' then some ([], rest)
    else if c = '\\' then
      match rest with
      | [] => none
      | e :: rest' =>
        if e = 'u' then
          match rest' with
          | a :: b :: x :: y :: rest'' =>
            match unicodeEscape a b x y, parseChars fuel rest'' with
            | some ch, some (s, r) => some (ch :: s, r)
            | _, _ => none
          | _ => none
        else
          match unescapeChar e, parseChars fuel rest' with
          | some ch, some (s, r) => some (ch :: s, r)
          | _, _ => none
    else if c.toNat < 32 then none
    else
      match parseChars fuel rest with
      | some (s, r) => some (c :: s, r)
      | none => none

/-- A JSON string at the head of the input. -/
def parseString (input : List Char) : Option (String × List Char) :=
  match input with
  | '"' :: rest =>
    match parseChars rest.length rest with
    | some (s, r) => some (⟨s⟩, r)
    | none => none
  | _ => none

/-- The input after the literal `lit`, when the input starts with it. -/
def expect (lit : List Char) (input : List Char) : Option (List Char) :=
  if lit.isPrefixOf input then some (input.drop lit.length) else none

/-- An entry object at the head of the input. -/
def parseEntry (input : List Char) : Option (SearchHistoryEntry × List Char) := do
  let r ← expect "\x7b\"query\":".data input
  let (q, r) ← parseString r
  let r ← expect ",\"type\":".data r
  let (t, r) ← parseString r
  let r ← expect ",\"timestamp\":".data r
  let (ts, r) ← parseString r
  let r ← expect ['\x7d'] r
  pure (⟨q, t, ts⟩, r)

/-- The entries after the first one, up to the closing bracket. -/
def parseMore : Nat → List Char → Option (List SearchHistoryEntry)
  | 0, _ => none
  | fuel + 1, input =>
    match input with
    | [']'] => some []
    | ',' :: rest =>
      match parseEntry rest with
      | some (e, r) =>
        match parseMore fuel r with
        | some es => some (e :: es)
        | none => none
      | none => none
    | _ => none

/-- The call `JSON.parse(text)` on the texts that `JSON.stringify` writes for
a search history: an array of objects with the string properties `query`,
`type` and `timestamp` in this order, without white space between the tokens.
Every other text is `none`: the call throws on it, or its value is not covered
by this embedding. -/
def parse (text : String) : Option (List SearchHistoryEntry) :=
  match text.data with
  | ['[', ']'] => some []
  | '[' :: rest =>
    match parseEntry rest with
    | some (e, r) =>
      match parseMore r.length.succ r with
      | some es => some (e :: es)
      | none => none
    | none => none
  | _ => none

end JSON

/-! ## Search history -/

/-- The mount effect: the history restored from local storage. An absent key
or an empty text leaves the initial history `[]`; otherwise the history is the
value of `JSON.parse` (`none` as for `JSON.parse`). -/
def restoreSearchHistory (localStorage : Option String) : Option (List SearchHistoryEntry) :=
  match localStorage with
  | none => some []
  | some savedHistory =>
    if truthy savedHistory then JSON.parse savedHistory else some []

/-- The array `newHistory` built by `addToSearchHistory`. -/
def newHistory (searchHistory : List SearchHistoryEntry) (searchType query now : String) :
    List SearchHistoryEntry :=
  (⟨query, searchType, now⟩ ::
    searchHistory.filter (fun item => item.query != query)).take 5

/-- The handler `addToSearchHistory(query)`. -/
def addToSearchHistory (query now : String) (s : State) : State :=
  if !truthy (trim query) then s
  else
    let h := newHistory s.searchHistory s.searchType query now
    { s with searchHistory := h, localStorage := some (JSON.stringify h) }

/-- The index filter `searchHistory.filter((_, i) => i !== index)`. -/
def filterIndex (index : Nat) : Nat → List SearchHistoryEntry → List SearchHistoryEntry
  | _, [] => []
  | i, item :: rest =>
    if i != index then item :: filterIndex index (i + 1) rest
    else filterIndex index (i + 1) rest

/-- The handler `removeFromHistory(index)`. -/
def removeFromHistory (index : Nat) (s : State) : State :=
  let h := filterIndex index 0 s.searchHistory
  { s with searchHistory := h, localStorage := some (JSON.stringify h) }

/-- The handler `clearHistory()`. -/
def clearHistory (s : State) : State :=
  { s with searchHistory := [], localStorage := none }

/-- The handler `handleSearch(e)` with `e.target.value = value`. -/
def handleSearch (value : String) (s : State) : State :=
  { s with searchQuery := value }

/-- The handler `handleSearchSubmit(e)`. -/
def handleSearchSubmit (e : Event) (now : String) (s : State) : State :=
  if e.type == "keypress" && e.key != some "Enter" then s
  else if truthy (trim s.searchQuery) then
    { addToSearchHistory s.searchQuery now s with showHistory := false }
  else s

/-- The handler `handleHistoryClick(item)`. -/
def handleHistoryClick (item : SearchHistoryEntry) (s : State) : State :=
  { s with searchQuery := item.query, searchType := item.type, showHistory := false }

/-- The handler `handleFilterChange(filterType, value)`; a key other than
`type` and `sortBy` adds a property that nothing reads. -/
def handleFilterChange (filterType value : String) (s : State) : State :=
  if filterType == "type" then
    { s with selectedFilters := { s.selectedFilters with type := value } }
  else if filterType == "sortBy" then
    { s with selectedFilters := { s.selectedFilters with sortBy := value } }
  else s

/-- The handler `clearFilters()`. -/
def clearFilters (s : State) : State :=
  { s with selectedFilters := ⟨"all", "recent"⟩, searchQuery := "" }

/-- The events of the page that change its state. -/
inductive Op where
  | handleSearch (value : String)
  | handleSearchSubmit (e : Event) (now : String)
  | addToSearchHistory (query now : String)
  | removeFromHistory (index : Nat)
  | clearHistory
  | setSearchType (searchType : String)
  | handleHistoryClick (item : SearchHistoryEntry)
  | handleFilterChange (filterType value : String)
  | clearFilters
  | setShowFilters (value : Bool)
  | setShowHistory (value : Bool)
deriving Repr

/-- The state after one event. -/
def step (s : State) : Op → State
  | .handleSearch value => handleSearch value s
  | .handleSearchSubmit e now => handleSearchSubmit e now s
  | .addToSearchHistory query now => addToSearchHistory query now s
  | .removeFromHistory index => removeFromHistory index s
  | .clearHistory => clearHistory s
  | .setSearchType searchType => { s with searchType := searchType }
  | .handleHistoryClick item => handleHistoryClick item s
  | .handleFilterChange filterType value => handleFilterChange filterType value s
  | .clearFilters => clearFilters s
  | .setShowFilters value => { s with showFilters := value }
  | .setShowHistory value => { s with showHistory := value }

/-- The state after a sequence of events, oldest first. -/
def run (s : State) (ops : List Op) : State :=
  ops.foldl step s

/-- The state of the first render: the initial values of the `useState`
cells, with `stored` under the local-storage key. -/
def initialState (stored : Option String) : State :=
  { searchQuery := ""
    selectedFilters := ⟨"all", "recent"⟩
    showFilters := false
    searchType := "posts"
    searchHistory := []
    showHistory := false
    localStorage := stored }

/-- The stored history is read back as the history of the state. -/
def Mirrored (s : State) : Prop :=
  restoreSearchHistory s.localStorage = some s.searchHistory

instance (s : State) : Decidable (Mirrored s) := by
  unfold Mirrored
  infer_instance

/-! ## Posts and users -/

/-- The author of a post, as read by the page: `{ name }`. -/
structure Author where
  name : String
deriving DecidableEq, Repr

/-- A post as read by the page. The field `image` is `none` when the property
is absent or `null`. The field `createdAt` is the time value in milliseconds of
`new Date(post.createdAt)`, `none` for an invalid date (`NaN`). The field
`likes` is the array of identifiers of the users who liked the post. -/
structure Post where
  id : String
  author : Author
  content : String
  image : Option String
  createdAt : Option Int
  likes : List String
deriving DecidableEq, Repr

/-- A user as read by the page. -/
structure User where
  id : String
  name : String
  email : String
  profilePicture : Option String
deriving DecidableEq, Repr

/-- Whether `t` occurs in `s` as a run of consecutive characters. -/
def includesChars (s t : List Char) : Bool :=
  match s with
  | [] => t.isPrefixOf []
  | c :: cs => t.isPrefixOf (c :: cs) || includesChars cs t

/-- The method `s.includes(t)`. -/
def includes (s t : String) : Bool :=
  includesChars s.data t.data

/-- Truthiness of `post.image`. -/
def imageTruthy (image : Option String) : Bool :=
  match image with
  | none => false
  | some url => truthy url

/-- The value `matchesSearch` of the post filter. -/
def matchesSearch (toLowerCase : String → String) (searchQuery : String) (post : Post) : Bool :=
  searchQuery == "" ||
    includes (toLowerCase post.content) (toLowerCase searchQuery) ||
    includes (toLowerCase post.author.name) (toLowerCase searchQuery)

/-- The truthiness of the value `matchesType` of the post filter. -/
def matchesType (selectedFilters : SelectedFilters) (post : Post) : Bool :=
  selectedFilters.type == "all" ||
    (selectedFilters.type == "text" && !imageTruthy post.image) ||
    (selectedFilters.type == "image" && imageTruthy post.image)

/-- The comparator handed to `sort`; `none` is `NaN`, the difference of two
dates of which one is invalid. -/
def sortComparator (selectedFilters : SelectedFilters) (a b : Post) : Option Int :=
  if selectedFilters.sortBy == "recent" then
    match b.createdAt, a.createdAt with
    | some tb, some ta => some (tb - ta)
    | _, _ => none
  else if selectedFilters.sortBy == "likes" then
    some ((b.likes.length : Int) - (a.likes.length : Int))
  else some 0

/-- The comparison made by `Array.prototype.sort`: the comparator's number,
with `NaN` read as `+0`. -/
def sortCompare {α : Type} (comparefn : α → α → Option Int) (x y : α) : Int :=
  (comparefn x y).getD 0

/-- Insertion of `x` in front of the first element that it does not have to
follow. -/
def sortInsert {α : Type} (comparefn : α → α → Option Int) (x : α) : List α → List α
  | [] => [x]
  | y :: ys =>
    if sortCompare comparefn x y ≤ 0 then x :: y :: ys
    else y :: sortInsert comparefn x ys

/-- The method `Array.prototype.sort(comparefn)` as a stable insertion sort:
`x` is placed after `y` only when `comparefn(x, y) > 0`. For a consistent
comparator the language fixes the result (the sort is stable), and this is it;
for an inconsistent one the order is left to the engine, and this is one of the
orders allowed. -/
def sort {α : Type} (comparefn : α → α → Option Int) : List α → List α
  | [] => []
  | x :: xs => sortInsert comparefn x (sort comparefn xs)

/-- The value `filteredPosts`; `none` is `undefined`, the value while `posts`
is `undefined`. -/
def filteredPosts (toLowerCase : String → String) (searchQuery : String)
    (selectedFilters : SelectedFilters) (posts : Option (List Post)) : Option (List Post) :=
  posts.map fun ps =>
    sort (sortComparator selectedFilters)
      (ps.filter fun post =>
        matchesSearch toLowerCase searchQuery post && matchesType selectedFilters post)

/-- The predicate of the user filter. -/
def matchesUser (toLowerCase : String → String) (searchQuery : String) (user : User) : Bool :=
  searchQuery == "" ||
    includes (toLowerCase user.name) (toLowerCase searchQuery) ||
    includes (toLowerCase user.email) (toLowerCase searchQuery)

/-- The value `filteredUsers`; `none` is `undefined`, the value while
`allUsers` is `undefined`. -/
def filteredUsers (toLowerCase : String → String) (searchQuery : String)
    (allUsers : Option (List User)) : Option (List User) :=
  allUsers.map fun us => us.filter (matchesUser toLowerCase searchQuery)

/-- The array that `filteredPosts` is when `posts` is defined. -/
def postsView (toLowerCase : String → String) (searchQuery : String)
    (selectedFilters : SelectedFilters) (posts : List Post) : List Post :=
  (filteredPosts toLowerCase searchQuery selectedFilters (some posts)).getD []

/-- The array that `filteredUsers` is when `allUsers` is defined. -/
def usersView (toLowerCase : String → String) (searchQuery : String)
    (allUsers : List User) : List User :=
  (filteredUsers toLowerCase searchQuery (some allUsers)).getD []

/-- The lower-casing of the letters `A` to `Z` only: a sample value of the
argument `toLowerCase`. -/
def asciiLowerCase (s : String) : String :=
  ⟨s.data.map Char.toLower⟩

/-- Sample posts. -/
def samplePosts : List Post :=
  [ ⟨"1", ⟨"Ann"⟩, "Hello World", none, some 10, ["u1"]⟩,
    ⟨"2", ⟨"Bob"⟩, "holiday", some "a.png", some 30, []⟩,
    ⟨"3", ⟨"Cy"⟩, "lunch", some "", some 20, ["u1", "u2", "u3"]⟩,
    ⟨"4", ⟨"Dee"⟩, "HELLO again", some "b.png", some 5, ["u2", "u3"]⟩ ]

/-- Sample users. -/
def sampleUsers : List User :=
  [ ⟨"1", "Ann", "ann@example.org", none⟩,
    ⟨"2", "Bob", "bob@example.org", some "b.png"⟩ ]

/-! ## Case mappings

`String.prototype.toLowerCase` and `String.prototype.toUpperCase` map the
characters by the Unicode Default Case Conversion, which does not depend on
the locale: the mappings of UnicodeData, the unconditional mappings of
SpecialCasing and its Final_Sigma rule. The tables are those of Unicode 14.0;
the characters up to U+007F are handled without a table. -/

namespace JSString

/-- Part 1 of `lowerCaseRuns`. -/
def lowerCaseRuns1 : List (Nat × Nat × Nat × Nat) :=
  [ (192, 214, 1, 224), (216, 222, 1, 248), (256, 302, 2, 257), (306, 310, 2, 307),
    (313, 327, 2, 314), (330, 374, 2, 331), (376, 376, 1, 255), (377, 381, 2, 378),
    (385, 385, 1, 595), (386, 388, 2, 387), (390, 390, 1, 596), (391, 391, 1, 392),
    (393, 394, 1, 598), (395, 395, 1, 396), (398, 398, 1, 477), (399, 399, 1, 601),
    (400, 400, 1, 603), (401, 401, 1, 402), (403, 403, 1, 608), (404, 404, 1, 611),
    (406, 406, 1, 617), (407, 407, 1, 616), (408, 408, 1, 409), (412, 412, 1, 623),
    (413, 413, 1, 626), (415, 415, 1, 629), (416, 420, 2, 417), (422, 422, 1, 640),
    (423, 423, 1, 424), (425, 425, 1, 643), (428, 428, 1, 429), (430, 430, 1, 648),
    (431, 431, 1, 432), (433, 434, 1, 650), (435, 437, 2, 436), (439, 439, 1, 658),
    (440, 440, 1, 441), (444, 444, 1, 445), (452, 452, 1, 454), (453, 453, 1, 454),
    (455, 455, 1, 457), (456, 456, 1, 457), (458, 458, 1, 460), (459, 475, 2, 460),
    (478, 494, 2, 479), (497, 497, 1, 499), (498, 500, 2, 499), (502, 502, 1, 405) ]

/-- Part 2 of `lowerCaseRuns`. -/
def lowerCaseRuns2 : List (Nat × Nat × Nat × Nat) :=
  [ (503, 503, 1, 447), (504, 542, 2, 505), (544, 544, 1, 414), (546, 562, 2, 547),
    (570, 570, 1, 11365), (571, 571, 1, 572), (573, 573, 1, 410), (574, 574, 1, 11366),
    (577, 577, 1, 578), (579, 579, 1, 384), (580, 580, 1, 649), (581, 581, 1, 652),
    (582, 590, 2, 583), (880, 882, 2, 881), (886, 886, 1, 887), (895, 895, 1, 1011),
    (902, 902, 1, 940), (904, 906, 1, 941), (908, 908, 1, 972), (910, 911, 1, 973),
    (913, 929, 1, 945), (931, 939, 1, 963), (975, 975, 1, 983), (984, 1006, 2, 985),
    (1012, 1012, 1, 952), (1015, 1015, 1, 1016), (1017, 1017, 1, 1010), (1018, 1018, 1, 1019),
    (1021, 1023, 1, 891), (1024, 1039, 1, 1104), (1040, 1071, 1, 1072), (1120, 1152, 2, 1121),
    (1162, 1214, 2, 1163), (1216, 1216, 1, 1231), (1217, 1229, 2, 1218), (1232, 1326, 2, 1233),
    (1329, 1366, 1, 1377), (4256, 4293, 1, 11520), (4295, 4295, 1, 11559),
    (4301, 4301, 1, 11565), (5024, 5103, 1, 43888), (5104, 5109, 1, 5112),
    (7312, 7354, 1, 4304), (7357, 7359, 1, 4349), (7680, 7828, 2, 7681), (7838, 7838, 1, 223),
    (7840, 7934, 2, 7841), (7944, 7951, 1, 7936) ]

/-- Part 3 of `lowerCaseRuns`. -/
def lowerCaseRuns3 : List (Nat × Nat × Nat × Nat) :=
  [ (7960, 7965, 1, 7952), (7976, 7983, 1, 7968), (7992, 7999, 1, 7984), (8008, 8013, 1, 8000),
    (8025, 8031, 2, 8017), (8040, 8047, 1, 8032), (8072, 8079, 1, 8064), (8088, 8095, 1, 8080),
    (8104, 8111, 1, 8096), (8120, 8121, 1, 8112), (8122, 8123, 1, 8048), (8124, 8124, 1, 8115),
    (8136, 8139, 1, 8050), (8140, 8140, 1, 8131), (8152, 8153, 1, 8144), (8154, 8155, 1, 8054),
    (8168, 8169, 1, 8160), (8170, 8171, 1, 8058), (8172, 8172, 1, 8165), (8184, 8185, 1, 8056),
    (8186, 8187, 1, 8060), (8188, 8188, 1, 8179), (8486, 8486, 1, 969), (8490, 8490, 1, 107),
    (8491, 8491, 1, 229), (8498, 8498, 1, 8526), (8544, 8559, 1, 8560), (8579, 8579, 1, 8580),
    (9398, 9423, 1, 9424), (11264, 11311, 1, 11312), (11360, 11360, 1, 11361),
    (11362, 11362, 1, 619), (11363, 11363, 1, 7549), (11364, 11364, 1, 637),
    (11367, 11371, 2, 11368), (11373, 11373, 1, 593), (11374, 11374, 1, 625),
    (11375, 11375, 1, 592), (11376, 11376, 1, 594), (11378, 11378, 1, 11379),
    (11381, 11381, 1, 11382), (11390, 11391, 1, 575), (11392, 11490, 2, 11393),
    (11499, 11501, 2, 11500), (11506, 11506, 1, 11507), (42560, 42604, 2, 42561),
    (42624, 42650, 2, 42625), (42786, 42798, 2, 42787) ]

/-- Part 4 of `lowerCaseRuns`. -/
def lowerCaseRuns4 : List (Nat × Nat × Nat × Nat) :=
  [ (42802, 42862, 2, 42803), (42873, 42875, 2, 42874), (42877, 42877, 1, 7545),
    (42878, 42886, 2, 42879), (42891, 42891, 1, 42892), (42893, 42893, 1, 613),
    (42896, 42898, 2, 42897), (42902, 42920, 2, 42903), (42922, 42922, 1, 614),
    (42923, 42923, 1, 604), (42924, 42924, 1, 609), (42925, 42925, 1, 620),
    (42926, 42926, 1, 618), (42928, 42928, 1, 670), (42929, 42929, 1, 647),
    (42930, 42930, 1, 669), (42931, 42931, 1, 43859), (42932, 42946, 2, 42933),
    (42948, 42948, 1, 42900), (42949, 42949, 1, 642), (42950, 42950, 1, 7566),
    (42951, 42953, 2, 42952), (42960, 42960, 1, 42961), (42966, 42968, 2, 42967),
    (42997, 42997, 1, 42998), (65313, 65338, 1, 65345), (66560, 66599, 1, 66600),
    (66736, 66771, 1, 66776), (66928, 66964, 2, 66967), (66929, 66937, 2, 66968),
    (66941, 66953, 2, 66980), (66957, 66961, 2, 66996), (66965, 66965, 1, 67004),
    (68736, 68786, 1, 68800), (71840, 71871, 1, 71872), (93760, 93791, 1, 93792),
    (125184, 125217, 1, 125218) ]

/-- The lower-case mappings of single characters above U+007F, as runs `(first, last, step, image of first)`: the characters `first`, `first + step`, ... up to `last` are mapped in step with `first`. -/
def lowerCaseRuns : List (Nat × Nat × Nat × Nat) :=
  lowerCaseRuns1 ++ lowerCaseRuns2 ++ lowerCaseRuns3 ++ lowerCaseRuns4

/-- Part 1 of `upperCaseRuns`. -/
def upperCaseRuns1 : List (Nat × Nat × Nat × Nat) :=
  [ (181, 181, 1, 924), (224, 246, 1, 192), (248, 254, 1, 216), (255, 255, 1, 376),
    (257, 303, 2, 256), (305, 305, 1, 73), (307, 311, 2, 306), (314, 328, 2, 313),
    (331, 375, 2, 330), (378, 382, 2, 377), (383, 383, 1, 83), (384, 384, 1, 579),
    (387, 389, 2, 386), (392, 392, 1, 391), (396, 396, 1, 395), (402, 402, 1, 401),
    (405, 405, 1, 502), (409, 409, 1, 408), (410, 410, 1, 573), (414, 414, 1, 544),
    (417, 421, 2, 416), (424, 424, 1, 423), (429, 429, 1, 428), (432, 432, 1, 431),
    (436, 438, 2, 435), (441, 441, 1, 440), (445, 445, 1, 444), (447, 447, 1, 503),
    (453, 453, 1, 452), (454, 454, 1, 452), (456, 456, 1, 455), (457, 457, 1, 455),
    (459, 459, 1, 458), (460, 460, 1, 458), (462, 476, 2, 461), (477, 477, 1, 398),
    (479, 495, 2, 478), (498, 498, 1, 497), (499, 499, 1, 497), (501, 501, 1, 500),
    (505, 543, 2, 504), (547, 563, 2, 546), (572, 572, 1, 571), (575, 576, 1, 11390),
    (578, 578, 1, 577), (583, 591, 2, 582), (592, 592, 1, 11375), (593, 593, 1, 11373) ]

/-- Part 2 of `upperCaseRuns`. -/
def upperCaseRuns2 : List (Nat × Nat × Nat × Nat) :=
  [ (594, 594, 1, 11376), (595, 595, 1, 385), (596, 596, 1, 390), (598, 599, 1, 393),
    (601, 601, 1, 399), (603, 603, 1, 400), (604, 604, 1, 42923), (608, 608, 1, 403),
    (609, 609, 1, 42924), (611, 611, 1, 404), (613, 613, 1, 42893), (614, 614, 1, 42922),
    (616, 616, 1, 407), (617, 617, 1, 406), (618, 618, 1, 42926), (619, 619, 1, 11362),
    (620, 620, 1, 42925), (623, 623, 1, 412), (625, 625, 1, 11374), (626, 626, 1, 413),
    (629, 629, 1, 415), (637, 637, 1, 11364), (640, 640, 1, 422), (642, 642, 1, 42949),
    (643, 643, 1, 425), (647, 647, 1, 42929), (648, 648, 1, 430), (649, 649, 1, 580),
    (650, 651, 1, 433), (652, 652, 1, 581), (658, 658, 1, 439), (669, 669, 1, 42930),
    (670, 670, 1, 42928), (837, 837, 1, 921), (881, 883, 2, 880), (887, 887, 1, 886),
    (891, 893, 1, 1021), (940, 940, 1, 902), (941, 943, 1, 904), (945, 961, 1, 913),
    (962, 962, 1, 931), (963, 971, 1, 931), (972, 972, 1, 908), (973, 974, 1, 910),
    (976, 976, 1, 914), (977, 977, 1, 920), (981, 981, 1, 934), (982, 982, 1, 928) ]

/-- Part 3 of `upperCaseRuns`. -/
def upperCaseRuns3 : List (Nat × Nat × Nat × Nat) :=
  [ (983, 983, 1, 975), (985, 1007, 2, 984), (1008, 1008, 1, 922), (1009, 1009, 1, 929),
    (1010, 1010, 1, 1017), (1011, 1011, 1, 895), (1013, 1013, 1, 917), (1016, 1016, 1, 1015),
    (1019, 1019, 1, 1018), (1072, 1103, 1, 1040), (1104, 1119, 1, 1024), (1121, 1153, 2, 1120),
    (1163, 1215, 2, 1162), (1218, 1230, 2, 1217), (1231, 1231, 1, 1216), (1233, 1327, 2, 1232),
    (1377, 1414, 1, 1329), (4304, 4346, 1, 7312), (4349, 4351, 1, 7357), (5112, 5117, 1, 5104),
    (7296, 7296, 1, 1042), (7297, 7297, 1, 1044), (7298, 7298, 1, 1054), (7299, 7300, 1, 1057),
    (7301, 7301, 1, 1058), (7302, 7302, 1, 1066), (7303, 7303, 1, 1122),
    (7304, 7304, 1, 42570), (7545, 7545, 1, 42877), (7549, 7549, 1, 11363),
    (7566, 7566, 1, 42950), (7681, 7829, 2, 7680), (7835, 7835, 1, 7776),
    (7841, 7935, 2, 7840), (7936, 7943, 1, 7944), (7952, 7957, 1, 7960), (7968, 7975, 1, 7976),
    (7984, 7991, 1, 7992), (8000, 8005, 1, 8008), (8017, 8023, 2, 8025), (8032, 8039, 1, 8040),
    (8048, 8049, 1, 8122), (8050, 8053, 1, 8136), (8054, 8055, 1, 8154), (8056, 8057, 1, 8184),
    (8058, 8059, 1, 8170), (8060, 8061, 1, 8186), (8112, 8113, 1, 8120) ]

/-- Part 4 of `upperCaseRuns`. -/
def upperCaseRuns4 : List (Nat × Nat × Nat × Nat) :=
  [ (8126, 8126, 1, 921), (8144, 8145, 1, 8152), (8160, 8161, 1, 8168), (8165, 8165, 1, 8172),
    (8526, 8526, 1, 8498), (8560, 8575, 1, 8544), (8580, 8580, 1, 8579), (9424, 9449, 1, 9398),
    (11312, 11359, 1, 11264), (11361, 11361, 1, 11360), (11365, 11365, 1, 570),
    (11366, 11366, 1, 574), (11368, 11372, 2, 11367), (11379, 11379, 1, 11378),
    (11382, 11382, 1, 11381), (11393, 11491, 2, 11392), (11500, 11502, 2, 11499),
    (11507, 11507, 1, 11506), (11520, 11557, 1, 4256), (11559, 11559, 1, 4295),
    (11565, 11565, 1, 4301), (42561, 42605, 2, 42560), (42625, 42651, 2, 42624),
    (42787, 42799, 2, 42786), (42803, 42863, 2, 42802), (42874, 42876, 2, 42873),
    (42879, 42887, 2, 42878), (42892, 42892, 1, 42891), (42897, 42899, 2, 42896),
    (42900, 42900, 1, 42948), (42903, 42921, 2, 42902), (42933, 42947, 2, 42932),
    (42952, 42954, 2, 42951), (42961, 42961, 1, 42960), (42967, 42969, 2, 42966),
    (42998, 42998, 1, 42997), (43859, 43859, 1, 42931), (43888, 43967, 1, 5024),
    (65345, 65370, 1, 65313), (66600, 66639, 1, 66560), (66776, 66811, 1, 66736),
    (66967, 67003, 2, 66928), (66968, 66976, 2, 66929), (66980, 66992, 2, 66941),
    (66996, 67000, 2, 66957), (67004, 67004, 1, 66965), (68800, 68850, 1, 68736),
    (71872, 71903, 1, 71840) ]

/-- Part 5 of `upperCaseRuns`. -/
def upperCaseRuns5 : List (Nat × Nat × Nat × Nat) :=
  [ (93792, 93823, 1, 93760), (125218, 125251, 1, 125184) ]

/-- The upper-case mappings of single characters above U+007F to a single character, as runs `(first, last, step, image of first)`. -/
def upperCaseRuns : List (Nat × Nat × Nat × Nat) :=
  upperCaseRuns1 ++ upperCaseRuns2 ++ upperCaseRuns3 ++ upperCaseRuns4 ++ upperCaseRuns5

/-- Part 1 of `upperCaseSpecial`. -/
def upperCaseSpecial1 : List (Nat × List Nat) :=
  [ (223, [83, 83]), (329, [700, 78]), (496, [74, 780]), (912, [921, 776, 769]),
    (944, [933, 776, 769]), (1415, [1333, 1362]), (7830, [72, 817]), (7831, [84, 776]),
    (7832, [87, 778]), (7833, [89, 778]), (7834, [65, 702]), (8016, [933, 787]),
    (8018, [933, 787, 768]), (8020, [933, 787, 769]), (8022, [933, 787, 834]),
    (8064, [7944, 921]), (8065, [7945, 921]), (8066, [7946, 921]), (8067, [7947, 921]),
    (8068, [7948, 921]), (8069, [7949, 921]), (8070, [7950, 921]), (8071, [7951, 921]),
    (8072, [7944, 921]), (8073, [7945, 921]), (8074, [7946, 921]), (8075, [7947, 921]),
    (8076, [7948, 921]), (8077, [7949, 921]), (8078, [7950, 921]), (8079, [7951, 921]),
    (8080, [7976, 921]), (8081, [7977, 921]), (8082, [7978, 921]), (8083, [7979, 921]),
    (8084, [7980, 921]), (8085, [7981, 921]), (8086, [7982, 921]), (8087, [7983, 921]),
    (8088, [7976, 921]) ]

/-- Part 2 of `upperCaseSpecial`. -/
def upperCaseSpecial2 : List (Nat × List Nat) :=
  [ (8089, [7977, 921]), (8090, [7978, 921]), (8091, [7979, 921]), (8092, [7980, 921]),
    (8093, [7981, 921]), (8094, [7982, 921]), (8095, [7983, 921]), (8096, [8040, 921]),
    (8097, [8041, 921]), (8098, [8042, 921]), (8099, [8043, 921]), (8100, [8044, 921]),
    (8101, [8045, 921]), (8102, [8046, 921]), (8103, [8047, 921]), (8104, [8040, 921]),
    (8105, [8041, 921]), (8106, [8042, 921]), (8107, [8043, 921]), (8108, [8044, 921]),
    (8109, [8045, 921]), (8110, [8046, 921]), (8111, [8047, 921]), (8114, [8122, 921]),
    (8115, [913, 921]), (8116, [902, 921]), (8118, [913, 834]), (8119, [913, 834, 921]),
    (8124, [913, 921]), (8130, [8138, 921]), (8131, [919, 921]), (8132, [905, 921]),
    (8134, [919, 834]), (8135, [919, 834, 921]), (8140, [919, 921]), (8146, [921, 776, 768]),
    (8147, [921, 776, 769]), (8150, [921, 834]), (8151, [921, 776, 834]),
    (8162, [933, 776, 768]) ]

/-- Part 3 of `upperCaseSpecial`. -/
def upperCaseSpecial3 : List (Nat × List Nat) :=
  [ (8163, [933, 776, 769]), (8164, [929, 787]), (8166, [933, 834]), (8167, [933, 776, 834]),
    (8178, [8186, 921]), (8179, [937, 921]), (8180, [911, 921]), (8182, [937, 834]),
    (8183, [937, 834, 921]), (8188, [937, 921]), (64256, [70, 70]), (64257, [70, 73]),
    (64258, [70, 76]), (64259, [70, 70, 73]), (64260, [70, 70, 76]), (64261, [83, 84]),
    (64262, [83, 84]), (64275, [1348, 1350]), (64276, [1348, 1333]), (64277, [1348, 1339]),
    (64278, [1358, 1350]), (64279, [1348, 1341]) ]

/-- The upper-case mappings to more than one character (the unconditional mappings of SpecialCasing). -/
def upperCaseSpecial : List (Nat × List Nat) :=
  upperCaseSpecial1 ++ upperCaseSpecial2 ++ upperCaseSpecial3

/-- Part 1 of `casedRanges`. -/
def casedRanges1 : List (Nat × Nat) :=
  [ (170, 170), (181, 181), (186, 186), (192, 214), (216, 246), (248, 442), (444, 447),
    (452, 659), (661, 687), (880, 883), (886, 887), (891, 893), (895, 895), (902, 902),
    (904, 906), (908, 908), (910, 929), (931, 1013), (1015, 1153), (1162, 1327), (1329, 1366),
    (1376, 1416), (4256, 4293), (4295, 4295), (4301, 4301), (4304, 4346), (4349, 4351),
    (5024, 5109), (5112, 5117), (7296, 7304), (7312, 7354), (7357, 7359), (7424, 7467),
    (7531, 7543), (7545, 7578), (7680, 7957), (7960, 7965), (7968, 8005), (8008, 8013),
    (8016, 8023), (8025, 8025), (8027, 8027), (8029, 8029), (8031, 8061), (8064, 8116),
    (8118, 8124), (8126, 8126), (8130, 8132), (8134, 8140), (8144, 8147), (8150, 8155),
    (8160, 8172), (8178, 8180), (8182, 8188), (8450, 8450), (8455, 8455), (8458, 8467),
    (8469, 8469), (8473, 8477), (8484, 8484), (8486, 8486), (8488, 8488), (8490, 8493),
    (8495, 8500) ]

/-- Part 2 of `casedRanges`. -/
def casedRanges2 : List (Nat × Nat) :=
  [ (8505, 8505), (8508, 8511), (8517, 8521), (8526, 8526), (8544, 8575), (8579, 8580),
    (9398, 9449), (11264, 11387), (11390, 11492), (11499, 11502), (11506, 11507),
    (11520, 11557), (11559, 11559), (11565, 11565), (42560, 42605), (42624, 42651),
    (42786, 42863), (42865, 42887), (42891, 42894), (42896, 42954), (42960, 42961),
    (42963, 42963), (42965, 42969), (42997, 42998), (43002, 43002), (43824, 43866),
    (43872, 43880), (43888, 43967), (64256, 64262), (64275, 64279), (65313, 65338),
    (65345, 65370), (66560, 66639), (66736, 66771), (66776, 66811), (66928, 66938),
    (66940, 66954), (66956, 66962), (66964, 66965), (66967, 66977), (66979, 66993),
    (66995, 67001), (67003, 67004), (68736, 68786), (68800, 68850), (71840, 71903),
    (93760, 93823), (119808, 119892), (119894, 119964), (119966, 119967), (119970, 119970),
    (119973, 119974), (119977, 119980), (119982, 119993), (119995, 119995), (119997, 120003),
    (120005, 120069), (120071, 120074), (120077, 120084), (120086, 120092), (120094, 120121),
    (120123, 120126), (120128, 120132), (120134, 120134) ]

/-- Part 3 of `casedRanges`. -/
def casedRanges3 : List (Nat × Nat) :=
  [ (120138, 120144), (120146, 120485), (120488, 120512), (120514, 120538), (120540, 120570),
    (120572, 120596), (120598, 120628), (120630, 120654), (120656, 120686), (120688, 120712),
    (120714, 120744), (120746, 120770), (120772, 120779), (122624, 122633), (122635, 122654),
    (125184, 125251), (127280, 127305), (127312, 127337), (127344, 127369) ]

/-- The ranges of the characters above U+007F that count as cased letters in the Final_Sigma rule: Cased and not Case_Ignorable. -/
def casedRanges : List (Nat × Nat) :=
  casedRanges1 ++ casedRanges2 ++ casedRanges3

/-- Part 1 of `caseIgnorableRanges`. -/
def caseIgnorableRanges1 : List (Nat × Nat) :=
  [ (168, 168), (173, 173), (175, 175), (180, 180), (183, 184), (688, 879), (884, 885),
    (890, 890), (900, 901), (903, 903), (1155, 1161), (1369, 1369), (1375, 1375), (1425, 1469),
    (1471, 1471), (1473, 1474), (1476, 1477), (1479, 1479), (1524, 1524), (1536, 1541),
    (1552, 1562), (1564, 1564), (1600, 1600), (1611, 1631), (1648, 1648), (1750, 1757),
    (1759, 1768), (1770, 1773), (1807, 1807), (1809, 1809), (1840, 1866), (1958, 1968),
    (2027, 2037), (2042, 2042), (2045, 2045), (2070, 2093), (2137, 2139), (2184, 2184),
    (2192, 2193), (2200, 2207), (2249, 2306), (2362, 2362), (2364, 2364), (2369, 2376),
    (2381, 2381), (2385, 2391), (2402, 2403), (2417, 2417), (2433, 2433), (2492, 2492),
    (2497, 2500), (2509, 2509), (2530, 2531), (2558, 2558), (2561, 2562), (2620, 2620),
    (2625, 2626), (2631, 2632), (2635, 2637), (2641, 2641), (2672, 2673), (2677, 2677),
    (2689, 2690), (2748, 2748) ]

/-- Part 2 of `caseIgnorableRanges`. -/
def caseIgnorableRanges2 : List (Nat × Nat) :=
  [ (2753, 2757), (2759, 2760), (2765, 2765), (2786, 2787), (2810, 2815), (2817, 2817),
    (2876, 2876), (2879, 2879), (2881, 2884), (2893, 2893), (2901, 2902), (2914, 2915),
    (2946, 2946), (3008, 3008), (3021, 3021), (3072, 3072), (3076, 3076), (3132, 3132),
    (3134, 3136), (3142, 3144), (3146, 3149), (3157, 3158), (3170, 3171), (3201, 3201),
    (3260, 3260), (3263, 3263), (3270, 3270), (3276, 3277), (3298, 3299), (3328, 3329),
    (3387, 3388), (3393, 3396), (3405, 3405), (3426, 3427), (3457, 3457), (3530, 3530),
    (3538, 3540), (3542, 3542), (3633, 3633), (3636, 3642), (3654, 3662), (3761, 3761),
    (3764, 3772), (3782, 3782), (3784, 3789), (3864, 3865), (3893, 3893), (3895, 3895),
    (3897, 3897), (3953, 3966), (3968, 3972), (3974, 3975), (3981, 3991), (3993, 4028),
    (4038, 4038), (4141, 4144), (4146, 4151), (4153, 4154), (4157, 4158), (4184, 4185),
    (4190, 4192), (4209, 4212), (4226, 4226), (4229, 4230) ]

/-- Part 3 of `caseIgnorableRanges`. -/
def caseIgnorableRanges3 : List (Nat × Nat) :=
  [ (4237, 4237), (4253, 4253), (4348, 4348), (4957, 4959), (5906, 5908), (5938, 5939),
    (5970, 5971), (6002, 6003), (6068, 6069), (6071, 6077), (6086, 6086), (6089, 6099),
    (6103, 6103), (6109, 6109), (6155, 6159), (6211, 6211), (6277, 6278), (6313, 6313),
    (6432, 6434), (6439, 6440), (6450, 6450), (6457, 6459), (6679, 6680), (6683, 6683),
    (6742, 6742), (6744, 6750), (6752, 6752), (6754, 6754), (6757, 6764), (6771, 6780),
    (6783, 6783), (6823, 6823), (6832, 6862), (6912, 6915), (6964, 6964), (6966, 6970),
    (6972, 6972), (6978, 6978), (7019, 7027), (7040, 7041), (7074, 7077), (7080, 7081),
    (7083, 7085), (7142, 7142), (7144, 7145), (7149, 7149), (7151, 7153), (7212, 7219),
    (7222, 7223), (7288, 7293), (7376, 7378), (7380, 7392), (7394, 7400), (7405, 7405),
    (7412, 7412), (7416, 7417), (7468, 7530), (7544, 7544), (7579, 7679), (8125, 8125),
    (8127, 8129), (8141, 8143), (8157, 8159), (8173, 8175) ]

/-- Part 4 of `caseIgnorableRanges`. -/
def caseIgnorableRanges4 : List (Nat × Nat) :=
  [ (8189, 8190), (8203, 8207), (8216, 8217), (8228, 8228), (8231, 8231), (8234, 8238),
    (8288, 8292), (8294, 8303), (8305, 8305), (8319, 8319), (8336, 8348), (8400, 8432),
    (11388, 11389), (11503, 11505), (11631, 11631), (11647, 11647), (11744, 11775),
    (11823, 11823), (12293, 12293), (12330, 12333), (12337, 12341), (12347, 12347),
    (12441, 12446), (12540, 12542), (40981, 40981), (42232, 42237), (42508, 42508),
    (42607, 42610), (42612, 42621), (42623, 42623), (42652, 42655), (42736, 42737),
    (42752, 42785), (42864, 42864), (42888, 42890), (42994, 42996), (43000, 43001),
    (43010, 43010), (43014, 43014), (43019, 43019), (43045, 43046), (43052, 43052),
    (43204, 43205), (43232, 43249), (43263, 43263), (43302, 43309), (43335, 43345),
    (43392, 43394), (43443, 43443), (43446, 43449), (43452, 43453), (43471, 43471),
    (43493, 43494), (43561, 43566), (43569, 43570), (43573, 43574), (43587, 43587),
    (43596, 43596), (43632, 43632), (43644, 43644), (43696, 43696), (43698, 43700),
    (43703, 43704), (43710, 43711) ]

/-- Part 5 of `caseIgnorableRanges`. -/
def caseIgnorableRanges5 : List (Nat × Nat) :=
  [ (43713, 43713), (43741, 43741), (43756, 43757), (43763, 43764), (43766, 43766),
    (43867, 43871), (43881, 43883), (44005, 44005), (44008, 44008), (44013, 44013),
    (64286, 64286), (64434, 64450), (65024, 65039), (65043, 65043), (65056, 65071),
    (65106, 65106), (65109, 65109), (65279, 65279), (65287, 65287), (65294, 65294),
    (65306, 65306), (65342, 65342), (65344, 65344), (65392, 65392), (65438, 65439),
    (65507, 65507), (65529, 65531), (66045, 66045), (66272, 66272), (66422, 66426),
    (67456, 67461), (67463, 67504), (67506, 67514), (68097, 68099), (68101, 68102),
    (68108, 68111), (68152, 68154), (68159, 68159), (68325, 68326), (68900, 68903),
    (69291, 69292), (69446, 69456), (69506, 69509), (69633, 69633), (69688, 69702),
    (69744, 69744), (69747, 69748), (69759, 69761), (69811, 69814), (69817, 69818),
    (69821, 69821), (69826, 69826), (69837, 69837), (69888, 69890), (69927, 69931),
    (69933, 69940), (70003, 70003), (70016, 70017), (70070, 70078), (70089, 70092),
    (70095, 70095), (70191, 70193), (70196, 70196), (70198, 70199) ]

/-- Part 6 of `caseIgnorableRanges`. -/
def caseIgnorableRanges6 : List (Nat × Nat) :=
  [ (70206, 70206), (70367, 70367), (70371, 70378), (70400, 70401), (70459, 70460),
    (70464, 70464), (70502, 70508), (70512, 70516), (70712, 70719), (70722, 70724),
    (70726, 70726), (70750, 70750), (70835, 70840), (70842, 70842), (70847, 70848),
    (70850, 70851), (71090, 71093), (71100, 71101), (71103, 71104), (71132, 71133),
    (71219, 71226), (71229, 71229), (71231, 71232), (71339, 71339), (71341, 71341),
    (71344, 71349), (71351, 71351), (71453, 71455), (71458, 71461), (71463, 71467),
    (71727, 71735), (71737, 71738), (71995, 71996), (71998, 71998), (72003, 72003),
    (72148, 72151), (72154, 72155), (72160, 72160), (72193, 72202), (72243, 72248),
    (72251, 72254), (72263, 72263), (72273, 72278), (72281, 72283), (72330, 72342),
    (72344, 72345), (72752, 72758), (72760, 72765), (72767, 72767), (72850, 72871),
    (72874, 72880), (72882, 72883), (72885, 72886), (73009, 73014), (73018, 73018),
    (73020, 73021), (73023, 73029), (73031, 73031), (73104, 73105), (73109, 73109),
    (73111, 73111), (73459, 73460), (78896, 78904), (92912, 92916) ]

/-- Part 7 of `caseIgnorableRanges`. -/
def caseIgnorableRanges7 : List (Nat × Nat) :=
  [ (92976, 92982), (92992, 92995), (94031, 94031), (94095, 94111), (94176, 94177),
    (94179, 94180), (110576, 110579), (110581, 110587), (110589, 110590), (113821, 113822),
    (113824, 113827), (118528, 118573), (118576, 118598), (119143, 119145), (119155, 119170),
    (119173, 119179), (119210, 119213), (119362, 119364), (121344, 121398), (121403, 121452),
    (121461, 121461), (121476, 121476), (121499, 121503), (121505, 121519), (122880, 122886),
    (122888, 122904), (122907, 122913), (122915, 122916), (122918, 122922), (123184, 123197),
    (123566, 123566), (123628, 123631), (125136, 125142), (125252, 125259), (127995, 127999),
    (917505, 917505), (917536, 917631), (917760, 917999) ]

/-- The ranges of the Case_Ignorable characters above U+007F. -/
def caseIgnorableRanges : List (Nat × Nat) :=
  caseIgnorableRanges1 ++ caseIgnorableRanges2 ++ caseIgnorableRanges3 ++ caseIgnorableRanges4 ++ caseIgnorableRanges5 ++
    caseIgnorableRanges6 ++ caseIgnorableRanges7

/-- The image of `n` under the first run that contains it. -/
def lookupRun : List (Nat × Nat × Nat × Nat) → Nat → Option Nat
  | [], _ => none
  | (first, last, step, image) :: rest, n =>
    if first ≤ n ∧ n ≤ last ∧ (n - first) % step = 0 then some (image + (n - first))
    else lookupRun rest n

/-- The entry of `n` in a table of mappings to several characters. -/
def lookupSpecial : List (Nat × List Nat) → Nat → Option (List Nat)
  | [], _ => none
  | (m, image) :: rest, n => if m = n then some image else lookupSpecial rest n

/-- Whether `n` lies in one of the ranges. -/
def inRanges : List (Nat × Nat) → Nat → Bool
  | [], _ => false
  | (first, last) :: rest, n => (first ≤ n && n ≤ last) || inRanges rest n

/-- The property Case_Ignorable. -/
def isCaseIgnorable (c : Char) : Bool :=
  if c.toNat < 128 then
    c.toNat == 0x27 || c.toNat == 0x2E || c.toNat == 0x3A || c.toNat == 0x5E || c.toNat == 0x60
  else inRanges caseIgnorableRanges c.toNat

/-- A cased letter in the sense of the Final_Sigma rule: Cased and not
Case_Ignorable. -/
def isCasedLetter (c : Char) : Bool :=
  if c.toNat < 128 then c.isAlpha else inRanges casedRanges c.toNat

/-- The lower-case mapping of one character, out of context. -/
def lowerChar (c : Char) : List Char :=
  if c.toNat < 128 then [c.toLower]
  else if c.toNat = 0x130 then ['i', Char.ofNat 0x307]
  else
    match lookupRun lowerCaseRuns c.toNat with
    | some n => [Char.ofNat n]
    | none => [c]

/-- The upper-case mapping of one character. -/
def upperChar (c : Char) : List Char :=
  if c.toNat < 128 then [c.toUpper]
  else
    match lookupSpecial upperCaseSpecial c.toNat with
    | some image => image.map Char.ofNat
    | none =>
      match lookupRun upperCaseRuns c.toNat with
      | some n => [Char.ofNat n]
      | none => [c]

/-- Whether a cased letter follows, after any number of case-ignorable
characters. -/
def followedByCased : List Char → Bool
  | [] => false
  | c :: cs => if isCaseIgnorable c then followedByCased cs else isCasedLetter c

/-- The lower-case mapping of the characters, where `afterCased` tells whether
they come after a cased letter and any number of case-ignorable characters.
The capital sigma U+03A3 becomes the final sigma U+03C2 when it is after a
cased letter and not before one (Final_Sigma), else the sigma U+03C3. -/
def lowerFrom (afterCased : Bool) : List Char → List Char
  | [] => []
  | c :: cs =>
    (if c.toNat = 0x3A3 then
      (if afterCased && !followedByCased cs then [Char.ofNat 0x3C2] else [Char.ofNat 0x3C3])
    else lowerChar c) ++
      lowerFrom (if isCaseIgnorable c then afterCased else isCasedLetter c) cs

/-- The upper-case mapping of the characters. -/
def upperChars : List Char → List Char
  | [] => []
  | c :: cs => upperChar c ++ upperChars cs

/-- The method `s.toLowerCase()`. -/
def toLowerCase (s : String) : String :=
  ⟨lowerFrom false s.data⟩

/-- The method `s.toUpperCase()`. -/
def toUpperCase (s : String) : String :=
  ⟨upperChars s.data⟩

end JSString

/-- Two strings that differ at most in the case of the letters `A` to `Z`. -/
def sameAsciiLetters (a b : String) : Prop :=
  a.data.map Char.toLower = b.data.map Char.toLower

instance (a b : String) : Decidable (sameAsciiLetters a b) := by
  unfold sameAsciiLetters
  infer_instance

/-- Two posts about a street: the first writes it with a sharp s, the second
in capitals. -/
def streetPosts : List Post :=
  [ ⟨"1", ⟨"Ann"⟩, "Hauptstraße 5", none, some 10, []⟩,
    ⟨"2", ⟨"Bob"⟩, "HAUPTSTRASSE 7", none, some 20, []⟩ ]

/-! ## Theorems: strings -/

theorem truthy_iff (s : String) : truthy s = true ↔ s ≠ "" := by
  simp [truthy]

theorem trim_eq_empty_iff (s : String) :
    trim s = "" ↔ ∀ c ∈ s.data, isWhiteSpace c = true := by
  have h : trim s = "" ↔
      ((s.data.dropWhile isWhiteSpace).reverse.dropWhile isWhiteSpace).reverse = [] := by
    unfold trim
    constructor
    · intro h
      exact congrArg String.data h
    · intro h
      rw [h]
  rw [h, List.reverse_eq_nil_iff, List.dropWhile_eq_nil_iff]
  constructor
  · intro hall
    cases hd : s.data.dropWhile isWhiteSpace with
    | nil => exact List.dropWhile_eq_nil_iff.mp hd
    | cons c cs =>
      exfalso
      have hc : isWhiteSpace c = true := hall c (by simp [hd])
      have hhead := List.head_dropWhile_not isWhiteSpace s.data (by simp [hd])
      simp [hd, hc] at hhead
  · intro hall c hc
    have hnil : s.data.dropWhile isWhiteSpace = [] := List.dropWhile_eq_nil_iff.mpr hall
    simp [hnil] at hc

/-! ## Theorems: search history -/

theorem length_newHistory_le (h : List SearchHistoryEntry) (ty q now : String) :
    (newHistory h ty q now).length ≤ 5 := by
  unfold newHistory
  exact List.length_take_le _ _

theorem newHistory_eq (h : List SearchHistoryEntry) (ty q now : String) :
    newHistory h ty q now =
      ⟨q, ty, now⟩ :: (h.filter (fun item => item.query != q)).take 4 := by
  simp [newHistory]

theorem filterIndex_sublist (index : Nat) :
    ∀ (i : Nat) (h : List SearchHistoryEntry), (filterIndex index i h).Sublist h := by
  intro i h
  induction h generalizing i with
  | nil => exact List.Sublist.refl _
  | cons item rest ih =>
    unfold filterIndex
    split
    · exact (ih (i + 1)).cons₂ item
    · exact (ih (i + 1)).cons item

theorem addToSearchHistory_of_nonblank (query now : String) (s : State)
    (hq : trim query ≠ "") :
    addToSearchHistory query now s =
      { s with
        searchHistory := newHistory s.searchHistory s.searchType query now
        localStorage :=
          some (JSON.stringify (newHistory s.searchHistory s.searchType query now)) } := by
  have ht : truthy (trim query) = true := (truthy_iff _).mpr hq
  simp [addToSearchHistory, ht]

theorem addToSearchHistory_of_blank (query now : String) (s : State)
    (hq : trim query = "") : addToSearchHistory query now s = s := by
  simp [addToSearchHistory, truthy, hq]

/-- The two shapes of the history after one event: a sub-list of the old
history, or a freshly built `newHistory`. -/
theorem step_searchHistory (s : State) (op : Op) :
    (step s op).searchHistory.Sublist s.searchHistory ∨
      ∃ ty q now, (step s op).searchHistory = newHistory s.searchHistory ty q now := by
  cases op with
  | handleSearch value => exact Or.inl (List.Sublist.refl _)
  | handleSearchSubmit e now =>
    show (handleSearchSubmit e now s).searchHistory.Sublist _ ∨ ∃ ty q now',
      (handleSearchSubmit e now s).searchHistory = newHistory s.searchHistory ty q now'
    unfold handleSearchSubmit
    split
    · exact Or.inl (List.Sublist.refl _)
    · split
      · rename_i ht
        right
        refine ⟨s.searchType, s.searchQuery, now, ?_⟩
        rw [addToSearchHistory_of_nonblank _ _ _ ((truthy_iff _).mp ht)]
      · exact Or.inl (List.Sublist.refl _)
  | addToSearchHistory query now =>
    by_cases hq : trim query = ""
    · left
      show (addToSearchHistory query now s).searchHistory.Sublist _
      rw [addToSearchHistory_of_blank _ _ _ hq]
    · right
      refine ⟨s.searchType, query, now, ?_⟩
      show (addToSearchHistory query now s).searchHistory = _
      rw [addToSearchHistory_of_nonblank _ _ _ hq]
  | removeFromHistory index => exact Or.inl (filterIndex_sublist index 0 _)
  | clearHistory => exact Or.inl (List.nil_sublist _)
  | setSearchType searchType => exact Or.inl (List.Sublist.refl _)
  | handleHistoryClick item => exact Or.inl (List.Sublist.refl _)
  | handleFilterChange filterType value =>
    show (handleFilterChange filterType value s).searchHistory.Sublist _ ∨ ∃ ty q now,
      (handleFilterChange filterType value s).searchHistory = newHistory s.searchHistory ty q now
    unfold handleFilterChange
    split
    · exact Or.inl (List.Sublist.refl _)
    · split <;> exact Or.inl (List.Sublist.refl _)
  | clearFilters => exact Or.inl (List.Sublist.refl _)
  | setShowFilters value => exact Or.inl (List.Sublist.refl _)
  | setShowHistory value => exact Or.inl (List.Sublist.refl _)

theorem run_invariant (P : List SearchHistoryEntry → Prop)
    (hsub : ∀ h h', h'.Sublist h → P h → P h')
    (hnew : ∀ h ty q now, P h → P (newHistory h ty q now))
    (ops : List Op) : ∀ s : State, P s.searchHistory → P (run s ops).searchHistory := by
  induction ops with
  | nil => intro s hs; exact hs
  | cons op ops ih =>
    intro s hs
    show P (run (step s op) ops).searchHistory
    apply ih
    rcases step_searchHistory s op with h | ⟨ty, q, now, h⟩
    · exact hsub _ _ h hs
    · rw [h]
      exact hnew _ _ _ _ hs

theorem nodup_newHistory (h : List SearchHistoryEntry) (ty q now : String)
    (hn : (h.map (·.query)).Nodup) :
    ((newHistory h ty q now).map (·.query)).Nodup := by
  have hsub : ((newHistory h ty q now).map (·.query)).Sublist
      (q :: (h.filter (fun item => item.query != q)).map (·.query)) := by
    unfold newHistory
    exact (List.take_sublist 5 _).map _
  refine List.Nodup.sublist hsub ?_
  rw [List.nodup_cons]
  constructor
  · simp [List.mem_map, List.mem_filter]
  · exact List.Nodup.sublist ((List.filter_sublist _).map _) hn

/-! ## Theorems: substring test and sorting -/

theorem includesChars_iff (s t : List Char) :
    includesChars s t = true ↔ List.IsInfix t s := by
  induction s with
  | nil =>
    unfold includesChars
    rw [List.isPrefixOf_iff_prefix, List.prefix_nil, List.infix_nil]
  | cons c cs ih =>
    unfold includesChars
    rw [Bool.or_eq_true, List.isPrefixOf_iff_prefix, ih, List.infix_cons_iff]

theorem includes_iff (s t : String) :
    includes s t = true ↔ List.IsInfix t.data s.data :=
  includesChars_iff s.data t.data

theorem sortInsert_perm {α : Type} (comparefn : α → α → Option Int) (x : α) :
    ∀ l : List α, (sortInsert comparefn x l).Perm (x :: l) := by
  intro l
  induction l with
  | nil => exact List.Perm.refl _
  | cons y ys ih =>
    unfold sortInsert
    split
    · exact List.Perm.refl _
    · exact ((ih.cons y).trans (List.Perm.swap x y ys))

theorem sort_perm {α : Type} (comparefn : α → α → Option Int) :
    ∀ l : List α, (sort comparefn l).Perm l := by
  intro l
  induction l with
  | nil => exact List.Perm.refl _
  | cons x xs ih =>
    unfold sort
    exact (sortInsert_perm comparefn x _).trans (ih.cons x)

/-- Insertion keeps a list in descending order of `key`, when the comparator
orders by `key` on the elements at hand. -/
theorem sortInsert_pairwise {α : Type} (comparefn : α → α → Option Int) (key : α → Int)
    (x : α) : ∀ l : List α,
      (∀ y ∈ l, sortCompare comparefn x y ≤ 0 ↔ key y ≤ key x) →
      l.Pairwise (fun a b => key b ≤ key a) →
      (sortInsert comparefn x l).Pairwise (fun a b => key b ≤ key a) := by
  intro l
  induction l with
  | nil =>
    intro _ _
    exact List.pairwise_singleton _ _
  | cons y ys ih =>
    intro hcmp hp
    have hy : ∀ z ∈ ys, key z ≤ key y := fun z hz => List.rel_of_pairwise_cons hp hz
    unfold sortInsert
    split
    · rename_i hle
      have hxy : key y ≤ key x := (hcmp y (List.mem_cons_self _ _)).mp hle
      refine List.Pairwise.cons ?_ hp
      intro z hz
      rcases List.mem_cons.mp hz with rfl | hz
      · exact hxy
      · exact le_trans (hy z hz) hxy
    · rename_i hnle
      have hxy : ¬ key y ≤ key x := fun h => hnle ((hcmp y (List.mem_cons_self _ _)).mpr h)
      refine List.Pairwise.cons ?_
        (ih (fun z hz => hcmp z (List.mem_cons_of_mem _ hz)) (List.Pairwise.of_cons hp))
      intro z hz
      rcases List.mem_cons.mp ((sortInsert_perm comparefn x ys).mem_iff.mp hz) with rfl | hz
      · omega
      · exact hy z hz

theorem sort_pairwise {α : Type} (comparefn : α → α → Option Int) (key : α → Int) :
    ∀ l : List α,
      (∀ x ∈ l, ∀ y ∈ l, sortCompare comparefn x y ≤ 0 ↔ key y ≤ key x) →
      (sort comparefn l).Pairwise (fun a b => key b ≤ key a) := by
  intro l
  induction l with
  | nil =>
    intro _
    exact List.Pairwise.nil
  | cons x xs ih =>
    intro hcmp
    unfold sort
    apply sortInsert_pairwise
    · intro y hy
      exact hcmp x (List.mem_cons_self _ _) y
        (List.mem_cons_of_mem _ ((sort_perm comparefn xs).mem_iff.mp hy))
    · exact ih (fun a ha b hb =>
        hcmp a (List.mem_cons_of_mem _ ha) b (List.mem_cons_of_mem _ hb))

theorem postsView_eq (toLowerCase : String → String) (searchQuery : String)
    (selectedFilters : SelectedFilters) (posts : List Post) :
    postsView toLowerCase searchQuery selectedFilters posts =
      sort (sortComparator selectedFilters)
        (posts.filter fun post =>
          matchesSearch toLowerCase searchQuery post && matchesType selectedFilters post) :=
  rfl

theorem filteredPosts_some (toLowerCase : String → String) (searchQuery : String)
    (selectedFilters : SelectedFilters) (posts : List Post) :
    filteredPosts toLowerCase searchQuery selectedFilters (some posts) =
      some (postsView toLowerCase searchQuery selectedFilters posts) :=
  rfl

theorem filteredUsers_some (toLowerCase : String → String) (searchQuery : String)
    (allUsers : List User) :
    filteredUsers toLowerCase searchQuery (some allUsers) =
      some (usersView toLowerCase searchQuery allUsers) :=
  rfl

theorem mem_postsView (toLowerCase : String → String) (searchQuery : String)
    (selectedFilters : SelectedFilters) (posts : List Post) (p : Post) :
    p ∈ postsView toLowerCase searchQuery selectedFilters posts ↔
      p ∈ posts ∧ matchesSearch toLowerCase searchQuery p = true ∧
        matchesType selectedFilters p = true := by
  rw [postsView_eq, (sort_perm _ _).mem_iff, List.mem_filter, Bool.and_eq_true]

theorem matchesSearch_iff (toLowerCase : String → String) (searchQuery : String) (p : Post) :
    matchesSearch toLowerCase searchQuery p = true ↔
      (searchQuery = "" ∨
        List.IsInfix (toLowerCase searchQuery).data (toLowerCase p.content).data ∨
        List.IsInfix (toLowerCase searchQuery).data (toLowerCase p.author.name).data) := by
  unfold matchesSearch
  rw [Bool.or_eq_true, Bool.or_eq_true, includes_iff, includes_iff, beq_iff_eq, or_assoc]

theorem imageTruthy_iff (image : Option String) :
    imageTruthy image = true ↔ ∃ url, image = some url ∧ url ≠ "" := by
  cases image with
  | none => simp [imageTruthy]
  | some url => simp [imageTruthy, truthy_iff]

theorem imageTruthy_false_iff (image : Option String) :
    imageTruthy image = false ↔ image = none ∨ image = some "" := by
  cases image with
  | none => simp [imageTruthy]
  | some url => simp [imageTruthy, truthy]

/-! ## Theorems: the JSON text of a history is read back -/

namespace JSON

theorem unicodeEscape_hexDigit :
    ∀ n, n < 32 →
      unicodeEscape '0' '0' (hexDigit (n / 16)) (hexDigit (n % 16)) = some (Char.ofNat n) := by
  decide

theorem escapeChar_length_pos (c : Char) : 1 ≤ (escapeChar c).length := by
  unfold escapeChar
  split_ifs <;> simp

theorem escape_length (s : List Char) : s.length ≤ (escape s).length := by
  induction s with
  | nil => simp [escape]
  | cons c cs ih =>
    have := escapeChar_length_pos c
    simp only [escape, List.length_append, List.length_cons]
    omega

theorem parseChars_escapeChar (c : Char) (fuel : Nat) (tail : List Char) :
    parseChars (fuel + 1) (escapeChar c ++ tail) =
      match parseChars fuel tail with
      | some (s, r) => some (c :: s, r)
      | none => none := by
  unfold escapeChar
  split_ifs with h1 h2 h3 h4 h5 h6 h7 h8
  · subst h1
    cases hp : parseChars fuel tail <;> simp [parseChars, unescapeChar, hp]
  · subst h2
    cases hp : parseChars fuel tail <;> simp [parseChars, unescapeChar, hp]
  · subst h3
    cases hp : parseChars fuel tail <;> simp [parseChars, unescapeChar, hp]
  · subst h4
    cases hp : parseChars fuel tail <;> simp [parseChars, unescapeChar, hp]
  · subst h5
    cases hp : parseChars fuel tail <;> simp [parseChars, unescapeChar, hp]
  · subst h6
    cases hp : parseChars fuel tail <;> simp [parseChars, unescapeChar, hp]
  · subst h7
    cases hp : parseChars fuel tail <;> simp [parseChars, unescapeChar, hp]
  · have hu := unicodeEscape_hexDigit c.toNat h8
    rw [Char.ofNat_toNat] at hu
    cases hp : parseChars fuel tail <;> simp [parseChars, hu, hp]
  · cases hp : parseChars fuel tail <;> simp [parseChars, h1, h2, h8, hp]


theorem parseChars_escape (s : List Char) :
    ∀ (fuel : Nat) (rest : List Char), s.length < fuel →
      parseChars fuel (escape s ++ '"' :: rest) = some (s, rest) := by
  induction s with
  | nil =>
    intro fuel rest hf
    obtain ⟨k, rfl⟩ : ∃ k, fuel = k + 1 := ⟨fuel - 1, by simp at hf; omega⟩
    simp [escape, parseChars]
  | cons c cs ih =>
    intro fuel rest hf
    obtain ⟨k, rfl⟩ : ∃ k, fuel = k + 1 := ⟨fuel - 1, by omega⟩
    have hk : cs.length < k := by
      simp only [List.length_cons] at hf
      omega
    rw [escape, List.append_assoc, parseChars_escapeChar, ih k rest hk]

theorem parseString_quote (s : String) (rest : List Char) :
    parseString (quote s ++ rest) = some (s, rest) := by
  have hlen : s.data.length < (escape s.data ++ '"' :: rest).length := by
    have := escape_length s.data
    simp only [List.length_append, List.length_cons]
    omega
  have h := parseChars_escape s.data _ rest hlen
  simp only [quote, List.cons_append, List.append_assoc, List.singleton_append, List.nil_append,
    parseString, h]

theorem expect_append (lit rest : List Char) : expect lit (lit ++ rest) = some rest := by
  have h : lit.isPrefixOf (lit ++ rest) = true :=
    List.isPrefixOf_iff_prefix.mpr (List.prefix_append lit rest)
  simp [expect, h]

theorem parseEntry_stringifyEntry (e : SearchHistoryEntry) (rest : List Char) :
    parseEntry (stringifyEntry e ++ rest) = some (e, rest) := by
  simp only [parseEntry, stringifyEntry, List.append_assoc, expect_append, parseString_quote,
    Option.bind_eq_bind, Option.some_bind, Option.pure_def, bind, pure]


theorem parseMore_stringifyMore (es : List SearchHistoryEntry) :
    ∀ fuel : Nat, es.length < fuel → parseMore fuel (stringifyMore es) = some es := by
  induction es with
  | nil =>
    intro fuel hf
    obtain ⟨k, rfl⟩ : ∃ k, fuel = k + 1 := ⟨fuel - 1, by simp at hf; omega⟩
    simp [stringifyMore, parseMore]
  | cons e es ih =>
    intro fuel hf
    obtain ⟨k, rfl⟩ : ∃ k, fuel = k + 1 := ⟨fuel - 1, by omega⟩
    have hk : es.length < k := by
      simp only [List.length_cons] at hf
      omega
    simp [stringifyMore, parseMore, parseEntry_stringifyEntry, ih k hk]

theorem stringifyMore_length (es : List SearchHistoryEntry) :
    es.length < (stringifyMore es).length := by
  induction es with
  | nil => simp [stringifyMore]
  | cons e es ih =>
    simp only [stringifyMore, List.length_cons, List.length_append]
    omega

theorem parse_cons (rest : List Char) (hne : rest ≠ [']']) :
    parse ⟨'[' :: rest⟩ =
      match parseEntry rest with
      | some (e, r) =>
        match parseMore r.length.succ r with
        | some es => some (e :: es)
        | none => none
      | none => none := by
  unfold parse
  split
  · rename_i heq
    simp at heq
    exact absurd heq hne
  · rename_i rest' _ heq
    simp at heq
    subst heq
    rfl
  · rename_i h1 h2
    exact absurd rfl (h2 _)

theorem parse_stringify (h : List SearchHistoryEntry) : parse (stringify h) = some h := by
  cases h with
  | nil => rfl
  | cons e es =>
    have hm := parseMore_stringifyMore es (stringifyMore es).length.succ
      (Nat.lt_succ_of_lt (stringifyMore_length es))
    have hne : stringifyEntry e ++ stringifyMore es ≠ [']'] := by
      simp [stringifyEntry]
    simp only [stringify]
    rw [parse_cons _ hne, parseEntry_stringifyEntry]
    simp only [hm]

theorem stringify_ne_empty (h : List SearchHistoryEntry) : stringify h ≠ "" := by
  intro he
  have hd := congrArg String.data he
  cases h <;> simp [stringify] at hd

end JSON

/-! ## Theorems: the claims on the search history -/

/-- C1: for a query whose trimmed text is non-empty, `addToSearchHistory`
produces a history whose first entry is the query with the current search
type, in which the query occurs exactly once, and whose other entries are the
previous entries with a different query, in their previous order, cut to four;
when the query was not present the new history is the new entry in front of
the previous history, cut to five. -/
theorem addToSearchHistory_front (s : State) (query now : String)
    (hq : trim query ≠ "") :
    (addToSearchHistory query now s).searchHistory.head? =
        some ⟨query, s.searchType, now⟩ ∧
      ((addToSearchHistory query now s).searchHistory.map (·.query)).count query = 1 ∧
      (addToSearchHistory query now s).searchHistory.tail =
        (s.searchHistory.filter (fun item => decide (item.query ≠ query))).take 4 ∧
      (query ∉ s.searchHistory.map (·.query) →
        (addToSearchHistory query now s).searchHistory =
            (⟨query, s.searchType, now⟩ :: s.searchHistory).take 5 ∧
          (addToSearchHistory query now s).searchHistory.length =
            min (s.searchHistory.length + 1) 5) := by
  rw [addToSearchHistory_of_nonblank _ _ _ hq]
  have hf : (fun item : SearchHistoryEntry => item.query != query) =
      (fun item => decide (item.query ≠ query)) := by
    funext item
    by_cases h : item.query = query <;> simp [h]
  simp only [newHistory_eq, hf]
  refine ⟨rfl, ?_, rfl, ?_⟩
  · rw [List.map_cons, List.count_cons_self, Nat.succ_inj']
    apply List.count_eq_zero_of_not_mem
    intro hmem
    rcases List.mem_map.mp hmem with ⟨item, hitem, hquery⟩
    have := (List.mem_filter.mp (List.mem_of_mem_take hitem)).2
    simp [hquery] at this
  · intro hnot
    have hall : s.searchHistory.filter (fun item => decide (item.query ≠ query)) =
        s.searchHistory := by
      apply List.filter_eq_self.mpr
      intro item hitem
      have : item.query ≠ query := fun h => hnot (List.mem_map.mpr ⟨item, hitem, h⟩)
      simpa using this
    rw [hall]
    refine ⟨by simp, ?_⟩
    simp only [List.length_cons, List.length_take]
    omega

theorem addToSearchHistory_front_witness :
    trim "cats" ≠ "" ∧
      "cats" ∉ ([⟨"dogs", "users", "t0"⟩] : List SearchHistoryEntry).map (·.query) ∧
      (addToSearchHistory "cats" "t2"
          { initialState none with
            searchHistory := [⟨"dogs", "users", "t0"⟩] }).searchHistory =
        [⟨"cats", "posts", "t2"⟩, ⟨"dogs", "users", "t0"⟩] :=
  ⟨by decide, by decide,
    ((addToSearchHistory_front
      { initialState none with searchHistory := [⟨"dogs", "users", "t0"⟩] }
      "cats" "t2" (by decide)).2.2.2 (by decide)).1⟩

/-- C2: starting from an empty history, the history has at most 5 entries
after every sequence of page events (among them `addToSearchHistory`,
`removeFromHistory` and `clearHistory` with any query, search type and index);
the array built by `addToSearchHistory` has at most 5 entries for every input
history, and so has the history it stores for a non-blank query. -/
theorem searchHistory_length_le_five (s : State) (hs : s.searchHistory = [])
    (ops : List Op) :
    (run s ops).searchHistory.length ≤ 5 ∧
      (∀ (h : List SearchHistoryEntry) (ty q now : String),
        (newHistory h ty q now).length ≤ 5) ∧
      (∀ (t : State) (q now : String), trim q ≠ "" →
        (addToSearchHistory q now t).searchHistory.length ≤ 5) := by
  refine ⟨?_, length_newHistory_le, ?_⟩
  · apply run_invariant (fun h => h.length ≤ 5)
    · intro h h' hsub hle
      exact le_trans hsub.length_le hle
    · intro h ty q now _
      exact length_newHistory_le h ty q now
    · simp [hs]
  · intro t q now hq
    rw [addToSearchHistory_of_nonblank _ _ _ hq]
    exact length_newHistory_le _ _ _ _

theorem searchHistory_length_le_five_witness :
    (initialState none).searchHistory = [] ∧
      (run (initialState none)
        [.addToSearchHistory "a" "t1", .addToSearchHistory "b" "t2",
          .addToSearchHistory "c" "t3", .addToSearchHistory "d" "t4",
          .addToSearchHistory "e" "t5", .removeFromHistory 9,
          .addToSearchHistory "f" "t6"]).searchHistory.length ≤ 5 ∧
      trim "g" ≠ "" ∧
      (addToSearchHistory "g" "t7"
        { initialState none with
          searchHistory :=
            [⟨"a", "posts", "t1"⟩, ⟨"b", "posts", "t2"⟩, ⟨"c", "posts", "t3"⟩,
              ⟨"d", "posts", "t4"⟩, ⟨"e", "posts", "t5"⟩,
              ⟨"f", "posts", "t6"⟩] }).searchHistory.length ≤ 5 :=
  ⟨rfl, (searchHistory_length_le_five (initialState none) rfl _).1, by decide,
    (searchHistory_length_le_five (initialState none) rfl []).2.2 _ "g" "t7" (by decide)⟩

/-- C3: starting from an empty history, the queries of the history entries
are pairwise distinct after every sequence of page events; and after a
non-blank query is submitted the only entry with that query is the new one,
with the search type and the timestamp of this submission. -/
theorem searchHistory_queries_nodup (s : State) (hs : s.searchHistory = [])
    (ops : List Op) :
    ((run s ops).searchHistory.map (·.query)).Nodup ∧
      (∀ (q now : String), trim q ≠ "" →
        (addToSearchHistory q now (run s ops)).searchHistory.filter
            (fun item => decide (item.query = q)) =
          [⟨q, (run s ops).searchType, now⟩]) := by
  constructor
  · apply run_invariant (fun h => (h.map (·.query)).Nodup)
    · intro h h' hsub hn
      exact List.Nodup.sublist (hsub.map _) hn
    · intro h ty q now hn
      exact nodup_newHistory h ty q now hn
    · simp [hs]
  · intro q now hq
    rw [addToSearchHistory_of_nonblank _ _ _ hq]
    simp only [newHistory_eq]
    rw [List.filter_cons_of_pos (by simp)]
    congr 1
    apply List.filter_eq_nil_iff.mpr
    intro item hitem
    have := (List.mem_filter.mp (List.mem_of_mem_take hitem)).2
    simpa using this

theorem searchHistory_queries_nodup_witness :
    (initialState none).searchHistory = [] ∧
      ((run (initialState none)
        [.addToSearchHistory "a" "t1", .setSearchType "users",
          .addToSearchHistory "b" "t2",
          .addToSearchHistory "a" "t3"]).searchHistory.map (·.query)).Nodup ∧
      trim "a" ≠ "" ∧
      (addToSearchHistory "a" "t3"
          (run (initialState none)
            [.addToSearchHistory "a" "t1", .setSearchType "users",
              .addToSearchHistory "b" "t2"])).searchHistory.filter
          (fun item => decide (item.query = "a")) =
        [⟨"a", (run (initialState none)
            [.addToSearchHistory "a" "t1", .setSearchType "users",
              .addToSearchHistory "b" "t2"]).searchType, "t3"⟩] :=
  ⟨rfl, (searchHistory_queries_nodup (initialState none) rfl _).1, by decide,
    (searchHistory_queries_nodup (initialState none) rfl
      [.addToSearchHistory "a" "t1", .setSearchType "users",
        .addToSearchHistory "b" "t2"]).2 "a" "t3" (by decide)⟩

/-- C7: `clearFilters` sets the filter type to "all", the sort order to
"recent" and the search query to the empty string, and leaves the search type,
the search history, the two visibility toggles and the stored history
unchanged. -/
theorem clearFilters_resets (s : State) :
    (clearFilters s).selectedFilters.type = "all" ∧
      (clearFilters s).selectedFilters.sortBy = "recent" ∧
      (clearFilters s).searchQuery = "" ∧
      (clearFilters s).searchType = s.searchType ∧
      (clearFilters s).searchHistory = s.searchHistory ∧
      (clearFilters s).showFilters = s.showFilters ∧
      (clearFilters s).showHistory = s.showHistory ∧
      (clearFilters s).localStorage = s.localStorage :=
  ⟨rfl, rfl, rfl, rfl, rfl, rfl, rfl, rfl⟩

/-- C8: when the search query is empty or consists only of white space,
`handleSearchSubmit` leaves the state unchanged for every event (so the
history, the stored history and the dropdown visibility are unchanged); and a
keypress event whose key is not Enter leaves the state unchanged for every
query. -/
theorem handleSearchSubmit_blank (s : State) (e : Event) (now : String) :
    ((∀ c ∈ s.searchQuery.data, isWhiteSpace c = true) →
        handleSearchSubmit e now s = s) ∧
      (e.type = "keypress" ∧ e.key ≠ some "Enter" →
        handleSearchSubmit e now s = s) := by
  constructor
  · intro hblank
    have ht : trim s.searchQuery = "" := (trim_eq_empty_iff _).mpr hblank
    unfold handleSearchSubmit
    split
    · rfl
    · simp [truthy, ht]
  · rintro ⟨hty, hkey⟩
    unfold handleSearchSubmit
    simp [hty, hkey]

theorem handleSearchSubmit_blank_witness :
    (∀ c ∈ " \t".data, isWhiteSpace c = true) ∧
      handleSearchSubmit ⟨"click", none⟩ "t1"
          { initialState none with searchQuery := " \t" } =
        { initialState none with searchQuery := " \t" } ∧
      (("keypress" : String) = "keypress" ∧ some "a" ≠ some "Enter") ∧
      handleSearchSubmit ⟨"keypress", some "a"⟩ "t1"
          { initialState none with searchQuery := "cats" } =
        { initialState none with searchQuery := "cats" } :=
  ⟨by decide,
    (handleSearchSubmit_blank { initialState none with searchQuery := " \t" }
      ⟨"click", none⟩ "t1").1 (by decide),
    ⟨rfl, by decide⟩,
    (handleSearchSubmit_blank { initialState none with searchQuery := "cats" }
      ⟨"keypress", some "a"⟩ "t1").2 ⟨rfl, by decide⟩⟩

/-! ## Theorems: the claims on filtering and sorting -/

theorem matchesType_all (f : SelectedFilters) (p : Post) (h : f.type = "all") :
    matchesType f p = true := by
  simp [matchesType, h]

theorem matchesType_text (f : SelectedFilters) (p : Post) (h : f.type = "text") :
    matchesType f p = !imageTruthy p.image := by
  have h1 : ("text" == "all") = false := by decide
  have h2 : ("text" == "image") = false := by decide
  simp [matchesType, h, h1, h2]

theorem matchesType_image (f : SelectedFilters) (p : Post) (h : f.type = "image") :
    matchesType f p = imageTruthy p.image := by
  have h1 : ("image" == "all") = false := by decide
  have h2 : ("image" == "text") = false := by decide
  simp [matchesType, h, h1, h2]

theorem matchesSearch_congr (toLowerCase : String → String) (q q' : String)
    (p p' : Post) (hl : toLowerCase q = toLowerCase q') (hq : q = "" ↔ q' = "")
    (hc : toLowerCase p.content = toLowerCase p'.content)
    (hn : toLowerCase p.author.name = toLowerCase p'.author.name) :
    matchesSearch toLowerCase q p = matchesSearch toLowerCase q' p' := by
  have he : (q == "") = (q' == "") := by
    by_cases h : q = ""
    · have h' : q' = "" := hq.mp h
      simp [h, h']
    · have h' : q' ≠ "" := fun h'' => h (hq.mpr h'')
      simp [h, h']
  unfold matchesSearch
  rw [he, hl, hc, hn]

theorem matchesUser_congr (toLowerCase : String → String) (q q' : String)
    (u u' : User) (hl : toLowerCase q = toLowerCase q') (hq : q = "" ↔ q' = "")
    (hn : toLowerCase u.name = toLowerCase u'.name)
    (he : toLowerCase u.email = toLowerCase u'.email) :
    matchesUser toLowerCase q u = matchesUser toLowerCase q' u' := by
  have hb : (q == "") = (q' == "") := by
    by_cases h : q = ""
    · have h' : q' = "" := hq.mp h
      simp [h, h']
    · have h' : q' ≠ "" := fun h'' => h (hq.mpr h'')
      simp [h, h']
  unfold matchesUser
  rw [hb, hl, hn, he]

/-! ## Theorems: the case of the letters A to Z does not matter to the lowering -/

namespace JSString

theorem upper_letter_cases (P : Char → Prop)
    (h : ∀ n, 65 ≤ n → n ≤ 90 → P (Char.ofNat n)) (c : Char)
    (hc : 65 ≤ c.toNat ∧ c.toNat ≤ 90) : P c := by
  rw [← Char.ofNat_toNat c]
  exact h c.toNat hc.1 hc.2

theorem toLower_facts (c : Char) :
    (c.toLower.toNat = 0x3A3 ↔ c.toNat = 0x3A3) ∧
      lowerChar c.toLower = lowerChar c ∧
      isCaseIgnorable c.toLower = isCaseIgnorable c ∧
      isCasedLetter c.toLower = isCasedLetter c := by
  by_cases hc : 65 ≤ c.toNat ∧ c.toNat ≤ 90
  · revert c
    intro c hc
    refine upper_letter_cases (fun c =>
      (c.toLower.toNat = 0x3A3 ↔ c.toNat = 0x3A3) ∧
      lowerChar c.toLower = lowerChar c ∧
      isCaseIgnorable c.toLower = isCaseIgnorable c ∧
      isCasedLetter c.toLower = isCasedLetter c) ?_ c hc
    intro n h1 h2
    interval_cases n <;> decide
  · have h : c.toLower = c := by
      unfold Char.toLower
      simp only [ge_iff_le]
      rw [if_neg hc]
    rw [h]
    exact ⟨Iff.rfl, rfl, rfl, rfl⟩


theorem followedByCased_map_toLower (l : List Char) :
    followedByCased (l.map Char.toLower) = followedByCased l := by
  induction l with
  | nil => rfl
  | cons c cs ih =>
    obtain ⟨_, _, hi, hc⟩ := toLower_facts c
    simp only [List.map_cons, followedByCased, hi, hc, ih]

theorem lowerFrom_map_toLower (l : List Char) :
    ∀ afterCased : Bool,
      lowerFrom afterCased (l.map Char.toLower) = lowerFrom afterCased l := by
  induction l with
  | nil => intro _; rfl
  | cons c cs ih =>
    intro afterCased
    obtain ⟨hs, hl, hi, hc⟩ := toLower_facts c
    simp only [List.map_cons, lowerFrom, hl, hi, hc, ih, followedByCased_map_toLower]
    by_cases h : c.toNat = 0x3A3
    · rw [if_pos h, if_pos (hs.mpr h)]
    · rw [if_neg h, if_neg (fun h' => h (hs.mp h'))]

theorem toUpper_toLower_ascii :
    ∀ n, n < 128 → (Char.ofNat n).toUpper.toLower = (Char.ofNat n).toLower := by
  decide

theorem upperChars_map_toLower (l : List Char) (h : ∀ c ∈ l, c.toNat < 128) :
    (upperChars l).map Char.toLower = l.map Char.toLower := by
  induction l with
  | nil => rfl
  | cons c cs ih =>
    have hc : c.toNat < 128 := h c (List.mem_cons_self _ _)
    have ht := toUpper_toLower_ascii c.toNat hc
    rw [Char.ofNat_toNat] at ht
    simp only [upperChars, upperChar, hc, if_true, List.singleton_append, List.map_cons, ht]
    rw [ih (fun d hd => h d (List.mem_cons_of_mem _ hd))]

end JSString

theorem sameAsciiLetters_toLowerCase (a b : String) (h : sameAsciiLetters a b) :
    JSString.toLowerCase a = JSString.toLowerCase b := by
  unfold JSString.toLowerCase
  rw [← JSString.lowerFrom_map_toLower a.data, ← JSString.lowerFrom_map_toLower b.data, h]

theorem sameAsciiLetters_empty (a b : String) (h : sameAsciiLetters a b) :
    a = "" ↔ b = "" := by
  have hlen : a.data.length = b.data.length := by
    have := congrArg List.length h
    simpa using this
  have ha : a = "" ↔ a.data.length = 0 := by
    rw [List.length_eq_zero]
    exact ⟨fun h => by rw [h], fun h => String.ext h⟩
  have hb : b = "" ↔ b.data.length = 0 := by
    rw [List.length_eq_zero]
    exact ⟨fun h => by rw [h], fun h => String.ext h⟩
  rw [ha, hb, hlen]

theorem sameAsciiLetters_toUpperCase (s : String) (h : ∀ c ∈ s.data, c.toNat < 128) :
    sameAsciiLetters s (JSString.toUpperCase s) :=
  (JSString.upperChars_map_toLower s.data h).symm

theorem JSString.toLower_idem_ascii :
    ∀ n, n < 128 → (Char.ofNat n).toLower.toLower = (Char.ofNat n).toLower := by
  decide

theorem JSString.lowerFrom_ascii (l : List Char) (h : ∀ c ∈ l, c.toNat < 128) :
    ∀ afterCased : Bool, JSString.lowerFrom afterCased l = l.map Char.toLower := by
  induction l with
  | nil => intro _; rfl
  | cons c cs ih =>
    intro afterCased
    have hc : c.toNat < 128 := h c (List.mem_cons_self _ _)
    have hs : ¬ c.toNat = 0x3A3 := by omega
    simp only [JSString.lowerFrom, JSString.lowerChar, hc, hs, if_true, if_false,
      List.singleton_append, List.map_cons]
    rw [ih (fun d hd => h d (List.mem_cons_of_mem _ hd))]

theorem sameAsciiLetters_toLowerCase_ascii (s : String) (h : ∀ c ∈ s.data, c.toNat < 128) :
    sameAsciiLetters s (JSString.toLowerCase s) := by
  unfold sameAsciiLetters JSString.toLowerCase
  rw [JSString.lowerFrom_ascii s.data h false, List.map_map]
  apply List.map_congr_left
  intro c hc
  have ht := JSString.toLower_idem_ascii c.toNat (h c hc)
  rw [Char.ofNat_toNat] at ht
  exact ht.symm

theorem filteredPosts_congr (toLowerCase : String → String) (q q' : String)
    (f : SelectedFilters) (posts : Option (List Post))
    (hl : toLowerCase q = toLowerCase q') (hq : q = "" ↔ q' = "") :
    filteredPosts toLowerCase q' f posts = filteredPosts toLowerCase q f posts := by
  have hp : (fun post : Post => matchesSearch toLowerCase q' post && matchesType f post) =
      (fun post => matchesSearch toLowerCase q post && matchesType f post) := by
    funext post
    rw [matchesSearch_congr toLowerCase q q' post post hl hq rfl rfl]
  unfold filteredPosts
  rw [hp]

theorem filteredUsers_congr (toLowerCase : String → String) (q q' : String)
    (allUsers : Option (List User))
    (hl : toLowerCase q = toLowerCase q') (hq : q = "" ↔ q' = "") :
    filteredUsers toLowerCase q' allUsers = filteredUsers toLowerCase q allUsers := by
  have hu : matchesUser toLowerCase q' = matchesUser toLowerCase q := by
    funext user
    rw [matchesUser_congr toLowerCase q q' user user hl hq rfl rfl]
  unfold filteredUsers
  rw [hu]

/-- C4: with filter type "image" the filtered posts are the posts that match
the search and whose image field is present and non-empty; with type "text"
they are the matching posts whose image field is absent or empty; with type
"all" they are all the matching posts. -/
theorem filteredPosts_type_filter (toLowerCase : String → String) (searchQuery : String)
    (f : SelectedFilters) (posts : List Post) :
    ∃ r, filteredPosts toLowerCase searchQuery f (some posts) = some r ∧
      (f.type = "image" → ∀ p, p ∈ r ↔
        (p ∈ posts ∧ matchesSearch toLowerCase searchQuery p = true) ∧
          ∃ url, p.image = some url ∧ url ≠ "") ∧
      (f.type = "text" → ∀ p, p ∈ r ↔
        (p ∈ posts ∧ matchesSearch toLowerCase searchQuery p = true) ∧
          (p.image = none ∨ p.image = some "")) ∧
      (f.type = "all" → ∀ p, p ∈ r ↔
        p ∈ posts ∧ matchesSearch toLowerCase searchQuery p = true) := by
  refine ⟨_, filteredPosts_some _ _ _ _, ?_, ?_, ?_⟩
  · intro h p
    rw [mem_postsView, matchesType_image f p h, imageTruthy_iff, and_assoc]
  · intro h p
    rw [mem_postsView, matchesType_text f p h, Bool.not_eq_true', imageTruthy_false_iff,
      and_assoc]
  · intro h p
    rw [mem_postsView, matchesType_all f p h]
    simp

theorem filteredPosts_type_filter_witness :
    (⟨"image", "recent"⟩ : SelectedFilters).type = "image" ∧
      (⟨"text", "recent"⟩ : SelectedFilters).type = "text" ∧
      (⟨"all", "recent"⟩ : SelectedFilters).type = "all" ∧
      (∃ r, filteredPosts asciiLowerCase "hello" ⟨"image", "recent"⟩ (some samplePosts) = some r ∧
        ∀ p ∈ r, ∃ url, p.image = some url ∧ url ≠ "") ∧
      (∃ r, filteredPosts asciiLowerCase "" ⟨"text", "recent"⟩ (some samplePosts) = some r ∧
        ∀ p ∈ r, p.image = none ∨ p.image = some "") ∧
      (∃ r, filteredPosts asciiLowerCase "" ⟨"all", "recent"⟩ (some samplePosts) = some r ∧
        ∀ p ∈ samplePosts, matchesSearch asciiLowerCase "" p = true → p ∈ r) := by
  refine ⟨rfl, rfl, rfl, ?_, ?_, ?_⟩
  · obtain ⟨r, hr, h, _, _⟩ :=
      filteredPosts_type_filter asciiLowerCase "hello" ⟨"image", "recent"⟩ samplePosts
    exact ⟨r, hr, fun p hp => ((h rfl p).mp hp).2⟩
  · obtain ⟨r, hr, _, h, _⟩ :=
      filteredPosts_type_filter asciiLowerCase "" ⟨"text", "recent"⟩ samplePosts
    exact ⟨r, hr, fun p hp => ((h rfl p).mp hp).2⟩
  · obtain ⟨r, hr, _, _, h⟩ :=
      filteredPosts_type_filter asciiLowerCase "" ⟨"all", "recent"⟩ samplePosts
    exact ⟨r, hr, fun p hp hm => (h rfl p).mpr ⟨hp, hm⟩⟩

/-- C5: with sort order "likes" every filtered post has at least as many
likes as every later one; with sort order "recent", when every post of the
input has a valid creation time, every filtered post has a creation time
greater than or equal to that of every later one. -/
theorem filteredPosts_sorted (toLowerCase : String → String) (searchQuery : String)
    (f : SelectedFilters) (posts : List Post) :
    ∃ r, filteredPosts toLowerCase searchQuery f (some posts) = some r ∧
      (f.sortBy = "likes" →
        r.Pairwise (fun a b => b.likes.length ≤ a.likes.length)) ∧
      (f.sortBy = "recent" → (∀ p ∈ posts, p.createdAt.isSome = true) →
        r.Pairwise (fun a b =>
          ∃ ta tb, a.createdAt = some ta ∧ b.createdAt = some tb ∧ tb ≤ ta)) := by
  refine ⟨_, filteredPosts_some _ _ _ _, ?_, ?_⟩
  · intro h
    rw [postsView_eq]
    have hne : ("likes" == "recent") = false := by decide
    have hs := sort_pairwise (sortComparator f) (fun p : Post => (p.likes.length : Int))
      (posts.filter fun post =>
        matchesSearch toLowerCase searchQuery post && matchesType f post)
      (by
        intro x _ y _
        simp only [sortCompare, sortComparator, h, hne, Bool.false_eq_true, if_false,
          beq_self_eq_true, if_true, Option.getD_some]
        omega)
    exact hs.imp (fun hab => Int.ofNat_le.mp hab)
  · intro h hvalid
    rw [postsView_eq]
    have hs := sort_pairwise (sortComparator f) (fun p : Post => p.createdAt.getD 0)
      (posts.filter fun post =>
        matchesSearch toLowerCase searchQuery post && matchesType f post)
      (by
        intro x hx y hy
        obtain ⟨tx, htx⟩ := Option.isSome_iff_exists.mp (hvalid x (List.mem_filter.mp hx).1)
        obtain ⟨ty, hty⟩ := Option.isSome_iff_exists.mp (hvalid y (List.mem_filter.mp hy).1)
        simp only [sortCompare, sortComparator, h, beq_self_eq_true, if_true, htx, hty,
          Option.getD_some]
        omega)
    refine (List.Pairwise.and_mem.mp hs).imp ?_
    rintro a b ⟨ha, hb, hab⟩
    have ha' := (List.mem_filter.mp ((sort_perm _ _).mem_iff.mp ha)).1
    have hb' := (List.mem_filter.mp ((sort_perm _ _).mem_iff.mp hb)).1
    obtain ⟨ta, hta⟩ := Option.isSome_iff_exists.mp (hvalid a ha')
    obtain ⟨tb, htb⟩ := Option.isSome_iff_exists.mp (hvalid b hb')
    refine ⟨ta, tb, hta, htb, ?_⟩
    simpa [hta, htb] using hab

theorem filteredPosts_sorted_witness :
    (⟨"all", "likes"⟩ : SelectedFilters).sortBy = "likes" ∧
      (⟨"all", "recent"⟩ : SelectedFilters).sortBy = "recent" ∧
      (∀ p ∈ samplePosts, p.createdAt.isSome = true) ∧
      (∃ r, filteredPosts asciiLowerCase "" ⟨"all", "likes"⟩ (some samplePosts) = some r ∧
        r.Pairwise (fun a b => b.likes.length ≤ a.likes.length)) ∧
      (∃ r, filteredPosts asciiLowerCase "" ⟨"all", "recent"⟩ (some samplePosts) = some r ∧
        r.Pairwise (fun a b =>
          ∃ ta tb, a.createdAt = some ta ∧ b.createdAt = some tb ∧ tb ≤ ta)) := by
  refine ⟨rfl, rfl, by decide, ?_, ?_⟩
  · obtain ⟨r, hr, h, _⟩ :=
      filteredPosts_sorted asciiLowerCase "" ⟨"all", "likes"⟩ samplePosts
    exact ⟨r, hr, h rfl⟩
  · obtain ⟨r, hr, _, h⟩ :=
      filteredPosts_sorted asciiLowerCase "" ⟨"all", "recent"⟩ samplePosts
    exact ⟨r, hr, h rfl (by decide)⟩

/-- C6, the claim as written fails: the upper-case form of the query "straße"
is "STRASSE", and with filter type "all" the query "straße" finds the first of
the two street posts only, its upper-case form the second only. -/
theorem search_upper_case_changes_result :
    JSString.toUpperCase "straße" = "STRASSE" ∧
      filteredPosts JSString.toLowerCase "straße" ⟨"all", "recent"⟩ (some streetPosts) =
        some [⟨"1", ⟨"Ann"⟩, "Hauptstraße 5", none, some 10, []⟩] ∧
      filteredPosts JSString.toLowerCase (JSString.toUpperCase "straße") ⟨"all", "recent"⟩
          (some streetPosts) =
        some [⟨"2", ⟨"Bob"⟩, "HAUPTSTRASSE 7", none, some 20, []⟩] ∧
      filteredPosts JSString.toLowerCase (JSString.toUpperCase "straße") ⟨"all", "recent"⟩
          (some streetPosts) ≠
        filteredPosts JSString.toLowerCase "straße" ⟨"all", "recent"⟩ (some streetPosts) := by
  decide

/-- C6, amended: for every lowering of strings, with filter type "all" a post
is among the filtered posts exactly when it is in the input and the query is
empty or the lower-cased query is a substring of the lower-cased content or of
the lower-cased author name, and a user is among the filtered users exactly
when it is in the input and the query is empty or the lower-cased query is a
substring of the lower-cased name or of the lower-cased email. With the
lowering `toLowerCase` of the language, a query that differs from the given one
in the case of the letters A to Z only gives the same filtered posts and
users; so do the upper-case and the lower-case form of a query of characters
up to U+007F; and fields that differ in the case of the letters A to Z only
give the same match. -/
theorem search_matches_lower_cased (lower : String → String) (searchQuery : String)
    (f : SelectedFilters) (posts : List Post) (allUsers : List User) :
    (f.type = "all" →
      ∃ r, filteredPosts lower searchQuery f (some posts) = some r ∧
        ∀ p, p ∈ r ↔ p ∈ posts ∧
          (searchQuery = "" ∨
            List.IsInfix (lower searchQuery).data (lower p.content).data ∨
            List.IsInfix (lower searchQuery).data (lower p.author.name).data)) ∧
      (∃ r, filteredUsers lower searchQuery (some allUsers) = some r ∧
        ∀ u, u ∈ r ↔ u ∈ allUsers ∧
          (searchQuery = "" ∨
            List.IsInfix (lower searchQuery).data (lower u.name).data ∨
            List.IsInfix (lower searchQuery).data (lower u.email).data)) ∧
      (∀ q', sameAsciiLetters searchQuery q' →
        filteredPosts JSString.toLowerCase q' f (some posts) =
            filteredPosts JSString.toLowerCase searchQuery f (some posts) ∧
          filteredUsers JSString.toLowerCase q' (some allUsers) =
            filteredUsers JSString.toLowerCase searchQuery (some allUsers)) ∧
      ((∀ c ∈ searchQuery.data, c.toNat < 128) →
        filteredPosts JSString.toLowerCase (JSString.toUpperCase searchQuery) f (some posts) =
            filteredPosts JSString.toLowerCase searchQuery f (some posts) ∧
          filteredPosts JSString.toLowerCase (JSString.toLowerCase searchQuery) f
              (some posts) =
            filteredPosts JSString.toLowerCase searchQuery f (some posts) ∧
          filteredUsers JSString.toLowerCase (JSString.toUpperCase searchQuery)
              (some allUsers) =
            filteredUsers JSString.toLowerCase searchQuery (some allUsers) ∧
          filteredUsers JSString.toLowerCase (JSString.toLowerCase searchQuery)
              (some allUsers) =
            filteredUsers JSString.toLowerCase searchQuery (some allUsers)) ∧
      (∀ p p' : Post, sameAsciiLetters p.content p'.content →
        sameAsciiLetters p.author.name p'.author.name →
        matchesSearch JSString.toLowerCase searchQuery p =
          matchesSearch JSString.toLowerCase searchQuery p') ∧
      (∀ u u' : User, sameAsciiLetters u.name u'.name →
        sameAsciiLetters u.email u'.email →
        matchesUser JSString.toLowerCase searchQuery u =
          matchesUser JSString.toLowerCase searchQuery u') := by
  have hsame : ∀ q', sameAsciiLetters searchQuery q' →
      filteredPosts JSString.toLowerCase q' f (some posts) =
          filteredPosts JSString.toLowerCase searchQuery f (some posts) ∧
        filteredUsers JSString.toLowerCase q' (some allUsers) =
          filteredUsers JSString.toLowerCase searchQuery (some allUsers) := by
    intro q' hq
    exact ⟨filteredPosts_congr _ _ _ _ _ (sameAsciiLetters_toLowerCase _ _ hq)
        (sameAsciiLetters_empty _ _ hq),
      filteredUsers_congr _ _ _ _ (sameAsciiLetters_toLowerCase _ _ hq)
        (sameAsciiLetters_empty _ _ hq)⟩
  refine ⟨?_, ?_, hsame, ?_, ?_, ?_⟩
  · intro h
    refine ⟨_, filteredPosts_some _ _ _ _, fun p => ?_⟩
    rw [mem_postsView, matchesType_all f p h, matchesSearch_iff]
    simp
  · refine ⟨_, filteredUsers_some _ _ _, fun u => ?_⟩
    show u ∈ allUsers.filter (matchesUser lower searchQuery) ↔ _
    rw [List.mem_filter]
    unfold matchesUser
    rw [Bool.or_eq_true, Bool.or_eq_true, includes_iff, includes_iff, beq_iff_eq, or_assoc]
  · intro hascii
    have hu := hsame _ (sameAsciiLetters_toUpperCase searchQuery hascii)
    have hl := hsame _ (sameAsciiLetters_toLowerCase_ascii searchQuery hascii)
    exact ⟨hu.1, hl.1, hu.2, hl.2⟩
  · intro p p' hc hn
    exact matchesSearch_congr _ searchQuery searchQuery p p' rfl Iff.rfl
      (sameAsciiLetters_toLowerCase _ _ hc) (sameAsciiLetters_toLowerCase _ _ hn)
  · intro u u' hn he
    exact matchesUser_congr _ searchQuery searchQuery u u' rfl Iff.rfl
      (sameAsciiLetters_toLowerCase _ _ hn) (sameAsciiLetters_toLowerCase _ _ he)

theorem search_matches_lower_cased_witness :
    (⟨"all", "recent"⟩ : SelectedFilters).type = "all" ∧
      sameAsciiLetters "haupt" "HaUPT" ∧
      (∀ c ∈ "haupt".data, c.toNat < 128) ∧
      (∃ r, filteredPosts JSString.toLowerCase "haupt" ⟨"all", "recent"⟩ (some streetPosts) =
          some r ∧
        ∀ p, p ∈ r ↔ p ∈ streetPosts ∧
          (("haupt" : String) = "" ∨
            List.IsInfix (JSString.toLowerCase "haupt").data
              (JSString.toLowerCase p.content).data ∨
            List.IsInfix (JSString.toLowerCase "haupt").data
              (JSString.toLowerCase p.author.name).data)) ∧
      filteredPosts JSString.toLowerCase "HaUPT" ⟨"all", "recent"⟩ (some streetPosts) =
        filteredPosts JSString.toLowerCase "haupt" ⟨"all", "recent"⟩ (some streetPosts) ∧
      filteredPosts JSString.toLowerCase (JSString.toUpperCase "haupt") ⟨"all", "recent"⟩
          (some streetPosts) =
        filteredPosts JSString.toLowerCase "haupt" ⟨"all", "recent"⟩ (some streetPosts) ∧
      filteredUsers JSString.toLowerCase "HaUPT" (some sampleUsers) =
        filteredUsers JSString.toLowerCase "haupt" (some sampleUsers) := by
  have h := search_matches_lower_cased JSString.toLowerCase "haupt" ⟨"all", "recent"⟩
    streetPosts sampleUsers
  have hs : sameAsciiLetters "haupt" "HaUPT" := by decide
  have ha : ∀ c ∈ "haupt".data, c.toNat < 128 := by decide
  exact ⟨rfl, hs, ha, h.1 rfl, (h.2.2.1 "HaUPT" hs).1, (h.2.2.2.1 ha).1,
    (h.2.2.1 "HaUPT" hs).2⟩

/-- C10: the filtered posts are a permutation of the input posts that satisfy
the search and type predicates: each such post occurs as often as in the
input and no other post occurs; with an empty query and filter type "all"
they are a permutation of the whole input. -/
theorem filteredPosts_perm (toLowerCase : String → String) (searchQuery : String)
    (f : SelectedFilters) (posts : List Post) :
    ∃ r, filteredPosts toLowerCase searchQuery f (some posts) = some r ∧
      r.Perm (posts.filter fun post =>
        matchesSearch toLowerCase searchQuery post && matchesType f post) ∧
      (∀ p, r.count p =
        if matchesSearch toLowerCase searchQuery p && matchesType f p then posts.count p
        else 0) ∧
      (searchQuery = "" → f.type = "all" → r.Perm posts) := by
  have hperm := sort_perm (sortComparator f) (posts.filter fun post =>
    matchesSearch toLowerCase searchQuery post && matchesType f post)
  refine ⟨_, filteredPosts_some _ _ _ _, hperm, ?_, ?_⟩
  · intro p
    rw [postsView_eq, hperm.count_eq]
    split
    · rename_i hp
      exact List.count_filter hp
    · rename_i hp
      apply List.count_eq_zero_of_not_mem
      intro hmem
      exact hp (List.mem_filter.mp hmem).2
  · intro hq hf
    rw [postsView_eq]
    refine hperm.trans ?_
    rw [List.filter_eq_self.mpr]
    intro p _
    rw [matchesType_all f p hf]
    simp [matchesSearch, hq]

theorem filteredPosts_perm_witness :
    ("" : String) = "" ∧ (⟨"all", "likes"⟩ : SelectedFilters).type = "all" ∧
      ∃ r, filteredPosts asciiLowerCase "" ⟨"all", "likes"⟩ (some samplePosts) = some r ∧
        r.Perm samplePosts := by
  obtain ⟨r, hr, _, _, h⟩ :=
    filteredPosts_perm asciiLowerCase "" ⟨"all", "likes"⟩ samplePosts
  exact ⟨rfl, rfl, r, hr, h rfl rfl⟩

/-! ## Theorems: the claim on local storage -/

theorem restoreSearchHistory_stringify (h : List SearchHistoryEntry) :
    restoreSearchHistory (some (JSON.stringify h)) = some h := by
  have ht : truthy (JSON.stringify h) = true :=
    (truthy_iff _).mpr (JSON.stringify_ne_empty h)
  simp [restoreSearchHistory, ht, JSON.parse_stringify]

theorem addToSearchHistory_mirrored (query now : String) (s : State) (hs : Mirrored s) :
    Mirrored (addToSearchHistory query now s) := by
  by_cases hq : trim query = ""
  · rw [addToSearchHistory_of_blank _ _ _ hq]
    exact hs
  · rw [addToSearchHistory_of_nonblank _ _ _ hq]
    exact restoreSearchHistory_stringify _

theorem step_mirrored (s : State) (op : Op) (hs : Mirrored s) : Mirrored (step s op) := by
  cases op with
  | handleSearch value => exact hs
  | handleSearchSubmit e now =>
    show Mirrored (handleSearchSubmit e now s)
    unfold handleSearchSubmit
    split
    · exact hs
    · split
      · exact addToSearchHistory_mirrored _ _ _ hs
      · exact hs
  | addToSearchHistory query now => exact addToSearchHistory_mirrored _ _ _ hs
  | removeFromHistory index => exact restoreSearchHistory_stringify _
  | clearHistory => rfl
  | setSearchType searchType => exact hs
  | handleHistoryClick item => exact hs
  | handleFilterChange filterType value =>
    show Mirrored (handleFilterChange filterType value s)
    unfold handleFilterChange
    split
    · exact hs
    · split <;> exact hs
  | clearFilters => exact hs
  | setShowFilters value => exact hs
  | setShowHistory value => exact hs

theorem run_mirrored (ops : List Op) : ∀ s : State, Mirrored s → Mirrored (run s ops) := by
  induction ops with
  | nil => intro s hs; exact hs
  | cons op ops ih =>
    intro s hs
    exact ih (step s op) (step_mirrored s op hs)

/-- C9: after `addToSearchHistory` with a non-blank query, after
`removeFromHistory` and after `clearHistory`, the history restored from the
local-storage key as on mount is the history that the operation left in the
state, entry by entry in the same order; and the same holds after every
sequence of page events that starts from the first render with an empty
storage. -/
theorem localStorage_mirrors_history (s : State) (query now : String) (index : Nat)
    (ops : List Op) :
    (trim query ≠ "" →
      restoreSearchHistory (addToSearchHistory query now s).localStorage =
        some (addToSearchHistory query now s).searchHistory) ∧
      restoreSearchHistory (removeFromHistory index s).localStorage =
        some (removeFromHistory index s).searchHistory ∧
      restoreSearchHistory (clearHistory s).localStorage =
        some (clearHistory s).searchHistory ∧
      restoreSearchHistory (run (initialState none) ops).localStorage =
        some (run (initialState none) ops).searchHistory := by
  refine ⟨?_, restoreSearchHistory_stringify _, rfl, run_mirrored ops _ rfl⟩
  intro hq
  rw [addToSearchHistory_of_nonblank _ _ _ hq]
  exact restoreSearchHistory_stringify _

theorem localStorage_mirrors_history_witness :
    trim "a \"b\"\n" ≠ "" ∧
      restoreSearchHistory
          (addToSearchHistory "a \"b\"\n" "t2"
            { initialState none with
              searchHistory := [⟨"dogs", "users", "t0"⟩] }).localStorage =
        some [⟨"a \"b\"\n", "posts", "t2"⟩, ⟨"dogs", "users", "t0"⟩] := by
  refine ⟨by decide, ?_⟩
  rw [(localStorage_mirrors_history
    { initialState none with searchHistory := [⟨"dogs", "users", "t0"⟩] }
    "a \"b\"\n" "t2" 0 []).1 (by decide)]
  rw [addToSearchHistory_of_nonblank _ _ _ (by decide)]
  decide

end HomePage
